import Mathlib

/-!
Verification development for the retirement-planning projection core of the
repository (file `remix-app/app/routes/charting-poc/chart-builders.ts`).

The TypeScript code is shallowly embedded over `ℚ`:

* JavaScript numbers are modelled as rationals; a model field that is absent
  or non-numeric (so that `Number(x)` yields `NaN`) is modelled as `none` of
  an `Option ℚ`.
* `Math.round x` is `⌊x + 1/2⌋` (JavaScript rounds half toward positive
  infinity, also for negative arguments).
* `Math.exp` is transcendental, so it cannot be a computable `ℚ` function.
  The investment projector uses its growth `rate` only through the single
  expression `Math.exp(rate)`, so the resolved parameter record stores the
  value `expRate = Math.exp(rate)` directly; the model-level builders take an
  oracle `mexp : ℚ → ℚ` standing for `Math.exp`.  Since `Math.exp` is
  strictly monotone with `exp 0 = 1`, a source-level hypothesis `rate ≥ 0`
  corresponds exactly to `1 ≤ expRate`, and any value `expRate > 1` is
  realized by some positive rate.
* Date strings are Lean `String`s; the unanchored regular-expression test
  `/\d{2}\/\d{2}\/\d{4}/.test s`, `s.split('/')` and the ECMAScript
  `Number(string)` coercion (decimal literals; `NaN` as `none`) are modelled
  character by character.
* A year-indexed chart series (`Record<number, number | null>`) is a total
  function `ℤ → JsVal` where `JsVal.undefined` stands for an absent key,
  `JsVal.null` for a stored `null` and `JsVal.num q` for a stored number.
* Model objects are typed records; the collections are the modern
  `{ items: { [name]: entity } }` shape (the legacy flat investment layout
  accepted by the source is not modelled).  `ℚ` division by zero is total
  (`x / 0 = 0`) where JavaScript would produce `Infinity`; no claim below
  exercises that corner.
-/

/-- JavaScript value stored at one key of a chart series record:
absent key (`undefined`), stored `null`, or a number. -/
inductive JsVal where
  | undefined : JsVal
  | null : JsVal
  | num : ℚ → JsVal
deriving DecidableEq

/-- The numeric payload, if any (`typeof v === 'number'`). -/
def JsVal.toNum : JsVal → Option ℚ
  | .num q => some q
  | _ => none

/-- Whether the value is a number. -/
def JsVal.isNum (v : JsVal) : Bool := (v.toNum).isSome

/-- `Math.round`: JavaScript rounds to the nearest integer, halves toward
positive infinity (`Math.round(-8.5) = -8`). -/
def jround (q : ℚ) : ℤ := ⌊q + 1/2⌋

/-- `Number(x) || 0` for a numeric-or-absent model field (`none` covers both a
missing field and a `NaN` coercion result). -/
def numOr0 (v : Option ℚ) : ℚ := v.getD 0

/-- `Number(x) || undefined`: `NaN` and `0` collapse to `undefined`. -/
def numOrUndef (v : Option ℚ) : Option ℚ :=
  match v with
  | none => none
  | some q => if q = 0 then none else some q

/-- `normalizePct` from `chart-builders.ts`: percent magnitudes above `1` (or
below `-1`) are treated as whole percents and divided by `100`; non-finite or
missing input yields `0`. -/
def normalizePct (val : Option ℚ) : ℚ :=
  let n := numOr0 val
  if n > 1 then n / 100
  else if n < -1 then n / 100
  else n

/-! ### Strings, the date regular expression, and `Number(string)` -/

/-- Whether ten leading characters match `\d{2}\/\d{2}\/\d{4}` at this
position. -/
def datePatAt : List Char → Bool
  | d1 :: d2 :: s1 :: d3 :: d4 :: s2 :: d5 :: d6 :: d7 :: d8 :: _ =>
      d1.isDigit && d2.isDigit && s1 = '/' && d3.isDigit && d4.isDigit &&
      s2 = '/' && d5.isDigit && d6.isDigit && d7.isDigit && d8.isDigit
  | _ => false

/-- Unanchored search for the pattern anywhere in the character list. -/
def hasDatePat : List Char → Bool
  | [] => false
  | c :: cs => datePatAt (c :: cs) || hasDatePat cs

/-- `/\d{2}\/\d{2}\/\d{4}/.test s` — an unanchored substring test. -/
def regexTestDate (s : String) : Bool := hasDatePat s.data

/-- `s.split('/')` on the character level (the separator is a single
character, so JavaScript and this definition agree field by field). -/
def splitOnSlash : List Char → List (List Char)
  | [] => [[]]
  | c :: cs =>
      if c = '/' then [] :: splitOnSlash cs
      else
        match splitOnSlash cs with
        | [] => [[c]]
        | p :: ps => (c :: p) :: ps

/-- Longest digit prefix and the remaining characters. -/
def takeDigits : List Char → List Char × List Char
  | [] => ([], [])
  | c :: cs =>
      if c.isDigit then
        let r := takeDigits cs
        (c :: r.1, r.2)
      else ([], c :: cs)

/-- Numeric value of a digit list (most significant first). -/
def digitsToNat (ds : List Char) : ℕ :=
  ds.foldl (fun a c => 10 * a + (c.toNat - 48)) 0

/-- Whitespace recognized by the ECMAScript `trim` step of `Number(string)`
(the common cases; exotic Unicode space code points are not modelled). -/
def isJsWs (c : Char) : Bool :=
  c = ' ' || c = '\t' || c = '\n' || c = '\r' || c = Char.ofNat 11 || c = Char.ofNat 12

/-- Exponent suffix of a decimal literal: empty, or `e`/`E` with optional
sign and a nonempty digit run consuming the rest of the input. -/
def parseExpPart (base : ℚ) : List Char → Option ℚ
  | [] => some base
  | c :: r =>
      if c = 'e' || c = 'E' then
        let core := fun (cs : List Char) (pos : Bool) =>
          let d := takeDigits cs
          if d.1.isEmpty || !d.2.isEmpty then none
          else some (if pos then base * 10 ^ digitsToNat d.1 else base / 10 ^ digitsToNat d.1)
        match r with
        | '+' :: r2 => core r2 true
        | '-' :: r2 => core r2 false
        | _ => core r true
      else none

/-- Unsigned decimal literal (`123`, `123.`, `123.45`, `.45`, with optional
exponent), consuming the whole input; `none` models `NaN`. -/
def parseDec (cs : List Char) : Option ℚ :=
  let ip := takeDigits cs
  if ip.1.isEmpty then
    match ip.2 with
    | '.' :: r2 =>
        let fp := takeDigits r2
        if fp.1.isEmpty then none
        else parseExpPart ((digitsToNat fp.1 : ℚ) / 10 ^ fp.1.length) fp.2
    | _ => none
  else
    match ip.2 with
    | '.' :: r2 =>
        let fp := takeDigits r2
        parseExpPart ((digitsToNat ip.1 : ℚ) + (digitsToNat fp.1 : ℚ) / 10 ^ fp.1.length) fp.2
    | _ => parseExpPart (digitsToNat ip.1 : ℚ) ip.2

/-- ECMAScript `Number(string)` restricted to decimal literals: surrounding
whitespace is trimmed, the empty remainder is `0`, an optional sign precedes
a decimal literal, and anything else is `NaN` (`none`).  Hexadecimal,
`Infinity` and numeric-separator forms are not modelled; no input considered
in this development uses them. -/
def jsStrToNum (s : String) : Option ℚ :=
  let cs := ((s.data.dropWhile isJsWs).reverse.dropWhile isJsWs).reverse
  match cs with
  | [] => some 0
  | c :: r =>
      if c = '+' then parseDec r
      else if c = '-' then (parseDec r).map (fun q => -q)
      else parseDec (c :: r)

/-- Year extraction used by every date read of the source:
`if (str && /\d{2}\/\d{2}\/\d{4}/.test(str)) y = Number(str.split('/')[2])`.
The outer `Option` is `undefined` (missing string, empty string, or failed
regex test); the inner `Option` is the `Number` result with `none` for `NaN`. -/
def extractYear (s : Option String) : Option (Option ℚ) :=
  match s with
  | none => none
  | some str =>
      if str = "" then none
      else if regexTestDate str then
        some (match (splitOnSlash str.data).get? 2 with
          | none => none
          | some f => jsStrToNum (String.mk f))
      else none

/-- A string of shape `MM/DD/YYYY` exactly: ten characters, digits in the
month, day and year positions and slashes between them.  Modelled from the
spec: this is the "fixed-format `MM/DD/YYYY`" well-formedness the spec's date
sentences quantify over (calendar validity of month and day is not part of
the character format). -/
def specWellFormedDate (s : String) : Bool :=
  match s.data with
  | [d1, d2, s1, d3, d4, s2, d5, d6, d7, d8] =>
      d1.isDigit && d2.isDigit && s1 = '/' && d3.isDigit && d4.isDigit &&
      s2 = '/' && d5.isDigit && d6.isDigit && d7.isDigit && d8.isDigit
  | _ => false

/-! ### The model -/

/-- A wage entity (`model.wages.items[name]`). -/
structure Wage where
  annual : Option ℚ
  raise : Option ℚ
  stopWorkDate : Option String
deriving DecidableEq

/-- An investment entity (`model.investments.items[name]`). -/
structure Investment where
  balance : Option ℚ
  rate : Option ℚ
  withdrawalDate : Option String
  withdrawalRate : Option ℚ
  contributionsFrom : Option String
  contributionRate : Option ℚ
deriving DecidableEq

/-- An annuity entity (`model.annuities.items[name]`). -/
structure Annuity where
  monthly : Option ℚ
  startDate : Option String
deriving DecidableEq

/-- The planning model read by all builders.  Collections are association
lists keyed by entity name (an absent collection is `[]`). -/
structure Model where
  wages : List (String × Wage)
  investments : List (String × Investment)
  annuities : List (String × Annuity)
  taxPercentage : Option ℚ
  inflationPercentage : Option ℚ
  retireDate : Option String
  yearsAfterRetire : Option ℚ
  planningHorizonYears : Option ℚ

/-- The empty entity `{}` a failed wage lookup falls back to. -/
def wageDefault : Wage := ⟨none, none, none⟩

/-- The empty entity `{}` a failed investment lookup falls back to. -/
def investmentDefault : Investment := ⟨none, none, none, none, none, none⟩

/-- The empty entity `{}` a failed annuity lookup falls back to. -/
def annuityDefault : Annuity := ⟨none, none⟩

/-- Membership of an integer year in an inclusive horizon whose upper bound
may be fractional (the source loop `for (y = begin; y <= end; y++)`). -/
def inHorizonB (beginYear : ℤ) (endYear : ℚ) (y : ℤ) : Bool :=
  decide (beginYear ≤ y) && decide ((y : ℚ) ≤ endYear)

/-! ### Shared series plumbing -/

/-- A series whose stored values are the rounded numbers `f i` for every year
of the horizon (`i` is the offset from the begin year); keys outside the
horizon are absent. -/
def seriesOf (beginYear : ℤ) (endYear : ℚ) (f : ℕ → ℤ) : ℤ → JsVal :=
  fun y =>
    if inHorizonB beginYear endYear y then .num ((f ((y - beginYear).toNat) : ℤ) : ℚ)
    else .undefined

/-- Output shape of the wage and annuity builders: begin/end year and the
gross, after-tax and after-tax-and-inflation monthly income series. -/
structure IncomeChart where
  beginYear : ℤ
  endYear : ℚ
  gross : ℤ → JsVal
  afterTax : ℤ → JsVal
  real : ℤ → JsVal

/-- `endYear = retireYear ? retireYear + yearsAfterRetire : nowYear + 10`,
overridden by a truthy positive `planningHorizonYears` — the horizon rule
shared verbatim by the investment and annuity builders. -/
def retireEndYear (nowYear : ℤ) (m : Model) : ℚ :=
  let yar := numOr0 m.yearsAfterRetire
  let e0 : ℚ :=
    match extractYear m.retireDate with
    | some (some q) => if q = 0 then (nowYear : ℚ) + 10 else q + yar
    | _ => (nowYear : ℚ) + 10
  match numOrUndef m.planningHorizonYears with
  | some q => if 0 < q then (nowYear : ℚ) + q - 1 else e0
  | none => e0

/-! ### Wage projector (`buildWageMonthlyIncomeChart`) -/

/-- Resolved numeric inputs of the wage loop. -/
structure WageParams where
  beginYear : ℤ
  annual : ℚ
  raise : ℚ
  taxRate : ℚ
  inflRate : ℚ

/-- `monthlyIncome = annual * (1+raise)^(y-beginYear) / 12`. -/
def wageMonthlyIncome (W : WageParams) (i : ℕ) : ℚ :=
  W.annual * (1 + W.raise) ^ i / 12

/-- `gross = Math.round(monthlyIncome)`. -/
def wageGrossVal (W : WageParams) (i : ℕ) : ℤ := jround (wageMonthlyIncome W i)

/-- `afterTax = Math.round(monthlyIncome * (1 - taxRate))`. -/
def wageAfterTaxVal (W : WageParams) (i : ℕ) : ℤ :=
  jround (wageMonthlyIncome W i * (1 - W.taxRate))

/-- `realAfterTax = Math.round(afterTax / (1+inflRate)^(y-beginYear))` — note
the numerator is the already-rounded `afterTax` constant of the source. -/
def wageRealVal (W : WageParams) (i : ℕ) : ℤ :=
  jround ((wageAfterTaxVal W i : ℚ) / (1 + W.inflRate) ^ i)

/-- Field resolution at the top of `buildWageMonthlyIncomeChart`. -/
def mkWageParams (nowYear : ℤ) (m : Model) (wageName : String) : WageParams :=
  let wd := (List.lookup wageName m.wages).getD wageDefault
  { beginYear := nowYear
    annual := numOr0 wd.annual
    raise := normalizePct wd.raise
    taxRate := normalizePct m.taxPercentage
    inflRate := normalizePct m.inflationPercentage }

/-- The wage end year: the stop-work year when parsed and nonzero, overridden
by a truthy positive planning horizon, then clamped below at the begin year. -/
def wageEndYear (nowYear : ℤ) (m : Model) (wageName : String) : ℚ :=
  let wd := (List.lookup wageName m.wages).getD wageDefault
  let e0 : ℚ :=
    match extractYear wd.stopWorkDate with
    | some (some q) => if q = 0 then (nowYear : ℚ) else q
    | _ => (nowYear : ℚ)
  let e1 : ℚ :=
    match numOrUndef m.planningHorizonYears with
    | some q => if 0 < q then (nowYear : ℚ) + q - 1 else e0
    | none => e0
  if e1 < (nowYear : ℚ) then (nowYear : ℚ) else e1

/-- `buildWageMonthlyIncomeChart` from `chart-builders.ts`. -/
def buildWageMonthlyIncomeChart (nowYear : ℤ) (m : Model) (wageName : String) :
    IncomeChart :=
  let W := mkWageParams nowYear m wageName
  let endY := wageEndYear nowYear m wageName
  { beginYear := nowYear
    endYear := endY
    gross := seriesOf nowYear endY (wageGrossVal W)
    afterTax := seriesOf nowYear endY (wageAfterTaxVal W)
    real := seriesOf nowYear endY (wageRealVal W) }

/-! ### Annuity projector (`buildAnnuityMonthlyIncomeChart`) -/

/-- Resolved numeric inputs of the annuity loop. -/
structure AnnParams where
  beginYear : ℤ
  monthly : ℚ
  startYear : Option (Option ℚ)
  taxRate : ℚ
  inflRate : ℚ

/-- `startYear !== undefined && y >= startYear` (false through a `NaN`
start year, since `y >= NaN` is false). -/
def annActiveB (A : AnnParams) (y : ℤ) : Bool :=
  match A.startYear with
  | some (some q) => decide (q ≤ (y : ℚ))
  | _ => false

/-- `gross = monthly ? Math.round(monthly) : 0`. -/
def annGrossVal (A : AnnParams) : ℤ :=
  if A.monthly = 0 then 0 else jround A.monthly

/-- `afterTax = Math.round(gross * (1 - taxRate))` — chained off the rounded
gross. -/
def annAfterTaxVal (A : AnnParams) : ℤ :=
  jround ((annGrossVal A : ℚ) * (1 - A.taxRate))

/-- `realAfterTax = Math.round(afterTax / (1+inflRate)^(y-beginYear))`. -/
def annRealVal (A : AnnParams) (i : ℕ) : ℤ :=
  jround ((annAfterTaxVal A : ℚ) / (1 + A.inflRate) ^ i)

/-- An annuity series: numbers once the start year is reached, `null` before
it (and for an absent or `NaN` start year), absent outside the horizon. -/
def annSeriesOf (A : AnnParams) (endYear : ℚ) (f : ℕ → ℤ) : ℤ → JsVal :=
  fun y =>
    if inHorizonB A.beginYear endYear y then
      if annActiveB A y then .num ((f ((y - A.beginYear).toNat) : ℤ) : ℚ) else .null
    else .undefined

/-- Field resolution of `buildAnnuityMonthlyIncomeChart`. -/
def mkAnnParams (nowYear : ℤ) (m : Model) (annuityName : String) : AnnParams :=
  let an := (List.lookup annuityName m.annuities).getD annuityDefault
  { beginYear := nowYear
    monthly := numOr0 an.monthly
    startYear := extractYear an.startDate
    taxRate := normalizePct m.taxPercentage
    inflRate := normalizePct m.inflationPercentage }

/-- `buildAnnuityMonthlyIncomeChart` from `chart-builders.ts`. -/
def buildAnnuityMonthlyIncomeChart (nowYear : ℤ) (m : Model) (annuityName : String) :
    IncomeChart :=
  let A := mkAnnParams nowYear m annuityName
  let endY := retireEndYear nowYear m
  { beginYear := nowYear
    endYear := endY
    gross := annSeriesOf A endY (fun _ => annGrossVal A)
    afterTax := annSeriesOf A endY (fun _ => annAfterTaxVal A)
    real := annSeriesOf A endY (annRealVal A) }

/-! ### Investment projector (`buildInvestmentBalanceAndWithdrawalChart`) -/

/-- The dead legacy contribution switch of the source, kept verbatim:
`const enableLegacyBalancePctFallback = false`. -/
def enableLegacyBalancePctFallback : Bool := false

/-- Resolved inputs of the investment loop.  `expRate` is the value of
`Math.exp(rate)` (the only use the loop makes of `rate`); see the header. -/
structure InvParams where
  beginYear : ℤ
  initialBalance : ℚ
  expRate : ℚ
  withdrawalYear : Option (Option ℚ)
  withdrawalRate : ℚ
  hasWageName : Bool
  wageAnnualBase : ℚ
  wageRaise : ℚ
  wageStopWorkYear : Option (Option ℚ)
  contributionRate : ℚ
  taxRate : ℚ
  inflRate : ℚ

/-- `withinWageYears = wageStopWorkYear === undefined || y <= wageStopWorkYear`
(false through a `NaN` stop-work year). -/
def withinWageYears (P : InvParams) (y : ℤ) : Bool :=
  match P.wageStopWorkYear with
  | none => true
  | some none => false
  | some (some q) => decide ((y : ℚ) ≤ q)

/-- The yearly contribution, including the disabled legacy
percent-of-balance branch (`bal` is the starting balance of the year). -/
def contributionAt (P : InvParams) (bal : ℚ) (i : ℕ) : ℚ :=
  if 0 < P.contributionRate then
    if P.hasWageName ∧ 0 < P.wageAnnualBase then
      if withinWageYears P (P.beginYear + i) then
        P.wageAnnualBase * (1 + P.wageRaise) ^ i * P.contributionRate
      else 0
    else if enableLegacyBalancePctFallback then bal * P.contributionRate
    else 0
  else 0

/-- `withdrawalYear !== undefined && y >= withdrawalYear && withdrawalRate > 0`
(false through a `NaN` withdrawal year). -/
def wActiveB (P : InvParams) (y : ℤ) : Bool :=
  match P.withdrawalYear with
  | some (some q) => decide (q ≤ (y : ℚ)) && decide (0 < P.withdrawalRate)
  | _ => false

/-- `balanceAfterContribution = balanceStartOfYear + contributionAnnual`. -/
def balAfterContribution (P : InvParams) (bal : ℚ) (i : ℕ) : ℚ :=
  bal + contributionAt P bal i

/-- Continuous compounding:
`growthAmount = bac * (e^rate - 1)`, `balanceAfterGrowth = bac + growthAmount`
(before the withdrawal is subtracted). -/
def balAfterGrowth (P : InvParams) (bal : ℚ) (i : ℕ) : ℚ :=
  let bac := balAfterContribution P bal i
  bac + bac * (P.expRate - 1)

/-- The realized annual withdrawal: `balanceStartOfYear * withdrawalRate`,
capped at the balance after growth, and `0` when the withdrawal is inactive. -/
def withdrawalOf (P : InvParams) (bal : ℚ) (i : ℕ) : ℚ :=
  if wActiveB P (P.beginYear + i) then
    let w0 := bal * P.withdrawalRate
    let bag := balAfterGrowth P bal i
    if bag < w0 then bag else w0
  else 0

/-- End-of-year balance, carried into the next year. -/
def endOfYearBal (P : InvParams) (bal : ℚ) (i : ℕ) : ℚ :=
  balAfterGrowth P bal i - withdrawalOf P bal i

/-- `balanceStartOfYear` entering year `beginYear + i`. -/
def balStart (P : InvParams) : ℕ → ℚ
  | 0 => P.initialBalance
  | i + 1 => endOfYearBal P (balStart P i) i

/-- The realized withdrawal of year `beginYear + i`. -/
def withdrawalAnnualAt (P : InvParams) (i : ℕ) : ℚ :=
  withdrawalOf P (balStart P i) i

/-- The pre-withdrawal balance after contribution and growth of year
`beginYear + i`. -/
def balAfterGrowthAt (P : InvParams) (i : ℕ) : ℚ :=
  balAfterGrowth P (balStart P i) i

/-- The reported (rounded) end-of-year balance of year `beginYear + i`. -/
def invBalReportedAt (P : InvParams) (i : ℕ) : ℤ :=
  jround (endOfYearBal P (balStart P i) i)

/-- `grossMonthly = withdrawalAnnual / 12` (unrounded). -/
def invWGrossMonthlyAt (P : InvParams) (i : ℕ) : ℚ :=
  withdrawalAnnualAt P i / 12

/-- `afterTax = grossMonthly * (1 - taxRate)` (unrounded). -/
def invWAfterTaxAt (P : InvParams) (i : ℕ) : ℚ :=
  invWGrossMonthlyAt P i * (1 - P.taxRate)

/-- `realAfterTax = afterTax / (1+inflRate)^(y-beginYear)` (unrounded). -/
def invWRealAt (P : InvParams) (i : ℕ) : ℚ :=
  invWAfterTaxAt P i / (1 + P.inflRate) ^ i

/-- Output shape of the investment builder. -/
structure InvChart where
  beginYear : ℤ
  endYear : ℚ
  balanceValues : ℤ → JsVal
  wGross : ℤ → JsVal
  wAfterTax : ℤ → JsVal
  wReal : ℤ → JsVal

/-- A withdrawal series: the rounded `f` value in active years, `null` in
inactive years of the horizon, absent outside the horizon. -/
def invNullableSeriesOf (P : InvParams) (endYear : ℚ) (f : ℕ → ℚ) : ℤ → JsVal :=
  fun y =>
    if inHorizonB P.beginYear endYear y then
      if wActiveB P y then .num ((jround (f ((y - P.beginYear).toNat)) : ℤ) : ℚ)
      else .null
    else .undefined

/-- Chart assembly from resolved parameters and the computed end year. -/
def invChartOfParams (P : InvParams) (endYear : ℚ) : InvChart :=
  { beginYear := P.beginYear
    endYear := endYear
    balanceValues := seriesOf P.beginYear endYear (invBalReportedAt P)
    wGross := invNullableSeriesOf P endYear (invWGrossMonthlyAt P)
    wAfterTax := invNullableSeriesOf P endYear (invWAfterTaxAt P)
    wReal := invNullableSeriesOf P endYear (invWRealAt P) }

/-- Field resolution at the top of `buildInvestmentBalanceAndWithdrawalChart`,
including the non-owning wage reference for contributions (a dangling or
falsy `contributionsFrom` leaves the wage base at `0`). -/
def mkInvParams (mexp : ℚ → ℚ) (nowYear : ℤ) (m : Model) (investmentName : String) :
    InvParams :=
  let inv := (List.lookup investmentName m.investments).getD investmentDefault
  let wref : Option Wage :=
    match inv.contributionsFrom with
    | some s => if s = "" then none else List.lookup s m.wages
    | none => none
  { beginYear := nowYear
    initialBalance := numOr0 inv.balance
    expRate := mexp (normalizePct inv.rate)
    withdrawalYear := extractYear inv.withdrawalDate
    withdrawalRate := normalizePct inv.withdrawalRate
    hasWageName := match inv.contributionsFrom with
      | some s => decide (s ≠ "")
      | none => false
    wageAnnualBase := match wref with | some w => numOr0 w.annual | none => 0
    wageRaise := match wref with | some w => normalizePct w.raise | none => 0
    wageStopWorkYear := match wref with | some w => extractYear w.stopWorkDate | none => none
    contributionRate := normalizePct inv.contributionRate
    taxRate := normalizePct m.taxPercentage
    inflRate := normalizePct m.inflationPercentage }

/-- `buildInvestmentBalanceAndWithdrawalChart` from `chart-builders.ts`. -/
def buildInvestmentBalanceAndWithdrawalChart (mexp : ℚ → ℚ) (nowYear : ℤ)
    (m : Model) (investmentName : String) : InvChart :=
  invChartOfParams (mkInvParams mexp nowYear m investmentName) (retireEndYear nowYear m)

/-! ### Aggregator (`buildTotalInvestmentAggregates`) -/

/-- Lexicographic code-unit comparison of character lists (the default
JavaScript array sort order for string keys). -/
def charsLe : List Char → List Char → Bool
  | [], _ => true
  | _ :: _, [] => false
  | a :: as, b :: bs =>
      if a.toNat < b.toNat then true
      else if b.toNat < a.toNat then false
      else charsLe as bs

/-- Insert a string into a sorted list (used to model
`Object.keys(x).sort()`; the aggregate sums below are order-independent). -/
def insertStr (s : String) : List String → List String
  | [] => [s]
  | t :: ts => if charsLe s.data t.data then s :: t :: ts else t :: insertStr s ts

/-- The sorted key list of a collection. -/
def sortKeys {α : Type} (l : List (String × α)) : List String :=
  l.foldr (fun p acc => insertStr p.1 acc) []

/-- Sorted investment names. -/
def invNamesOf (m : Model) : List String := sortKeys m.investments

/-- Sorted wage names. -/
def wageNamesOf (m : Model) : List String := sortKeys m.wages

/-- Sorted annuity names. -/
def annNamesOf (m : Model) : List String := sortKeys m.annuities

/-- Negation of the all-collections-empty early-return test. -/
def hasEntitiesOf (m : Model) : Bool :=
  !((invNamesOf m).isEmpty && (annNamesOf m).isEmpty && (wageNamesOf m).isEmpty)

/-- The per-investment charts the aggregator sums over. -/
def invChartsOf (mexp : ℚ → ℚ) (nowYear : ℤ) (m : Model) : List InvChart :=
  (invNamesOf m).map (buildInvestmentBalanceAndWithdrawalChart mexp nowYear m)

/-- The per-annuity charts. -/
def annChartsOf (nowYear : ℤ) (m : Model) : List IncomeChart :=
  (annNamesOf m).map (buildAnnuityMonthlyIncomeChart nowYear m)

/-- The per-wage charts. -/
def wageChartsOf (nowYear : ℤ) (m : Model) : List IncomeChart :=
  (wageNamesOf m).map (buildWageMonthlyIncomeChart nowYear m)

/-- Wage charts with their names (the source iterates `wageSeries` with an
index into `wageNames`). -/
def wagePairsOf (nowYear : ℤ) (m : Model) : List (String × IncomeChart) :=
  (wageNamesOf m).zip (wageChartsOf nowYear m)

/-- The `wageStopWorkYears` map of the aggregator. -/
def stopsOf (m : Model) : String → Option (Option ℚ) :=
  fun n =>
    extractYear (match List.lookup n m.wages with
      | some w => w.stopWorkDate
      | none => none)

/-- `stopYear !== undefined && y === stopYear`, the terminal-year wage
suppression test (false through a `NaN` stop year). -/
def suppressedAt (stops : String → Option (Option ℚ)) (n : String) (y : ℤ) : Bool :=
  match stops n with
  | some (some q) => decide ((y : ℚ) = q)
  | _ => false

/-- Combined begin year: `reduce(min)` over all charts' begin years. -/
def aggBeginYear (mexp : ℚ → ℚ) (nowYear : ℤ) (m : Model) : ℤ :=
  let begins := (invChartsOf mexp nowYear m).map (fun c => c.beginYear)
    ++ (annChartsOf nowYear m).map (fun c => c.beginYear)
    ++ (wageChartsOf nowYear m).map (fun c => c.beginYear)
  begins.foldl min (begins.headD nowYear)

/-- Combined end year: `reduce(max)` over all charts' end years. -/
def aggEndYear (mexp : ℚ → ℚ) (nowYear : ℤ) (m : Model) : ℚ :=
  let ends := (invChartsOf mexp nowYear m).map (fun c => c.endYear)
    ++ (annChartsOf nowYear m).map (fun c => c.endYear)
    ++ (wageChartsOf nowYear m).map (fun c => c.endYear)
  ends.foldl max (ends.headD (nowYear : ℚ))

/-- `balSum`: the fold adding every numeric investment balance value at `y`. -/
def balSumAt (cs : List InvChart) (y : ℤ) : ℚ :=
  cs.foldl
    (fun s c =>
      match (c.balanceValues y).toNum with
      | some q => s + q
      | none => s)
    0

/-- The mutable `{ anyIncome, gSum, atSum, ratSum }` state of the income
aggregation loop. -/
structure IncAcc where
  anyIncome : Bool
  gSum : ℚ
  aTSum : ℚ
  rATSum : ℚ
deriving DecidableEq

/-- One entity's visit: a numeric gross sets `anyIncome` and adds to `gSum`;
numeric after-tax and real values add to their sums. -/
def stepIncome (acc : IncAcc) (g a r : JsVal) : IncAcc :=
  let acc1 :=
    match g with
    | .num q => { acc with anyIncome := true, gSum := acc.gSum + q }
    | _ => acc
  let acc2 :=
    match a with
    | .num q => { acc1 with aTSum := acc1.aTSum + q }
    | _ => acc1
  match r with
  | .num q => { acc2 with rATSum := acc2.rATSum + q }
  | _ => acc2

/-- The investment-withdrawal pass of the income loop. -/
def invFoldInc (cs : List InvChart) (y : ℤ) (acc : IncAcc) : IncAcc :=
  cs.foldl (fun a c => stepIncome a (c.wGross y) (c.wAfterTax y) (c.wReal y)) acc

/-- The annuity pass of the income loop. -/
def annFoldInc (cs : List IncomeChart) (y : ℤ) (acc : IncAcc) : IncAcc :=
  cs.foldl (fun a c => stepIncome a (c.gross y) (c.afterTax y) (c.real y)) acc

/-- The wage pass of the income loop, skipping a wage entirely at its own
stop-work year. -/
def wageFoldInc (ps : List (String × IncomeChart)) (stops : String → Option (Option ℚ))
    (y : ℤ) (acc : IncAcc) : IncAcc :=
  ps.foldl
    (fun a p =>
      if suppressedAt stops p.1 y then a
      else stepIncome a (p.2.gross y) (p.2.afterTax y) (p.2.real y))
    acc

/-- The income accumulator after all three passes of year `y`. -/
def aggIncomeAcc (mexp : ℚ → ℚ) (nowYear : ℤ) (m : Model) (y : ℤ) : IncAcc :=
  wageFoldInc (wagePairsOf nowYear m) (stopsOf m) y
    (annFoldInc (annChartsOf nowYear m) y
      (invFoldInc (invChartsOf mexp nowYear m) y ⟨false, 0, 0, 0⟩))

/-- Output shape of the aggregator. -/
structure AggChart where
  beginYear : ℤ
  endYear : ℚ
  hasBalanceSeries : Bool
  totalBalance : ℤ → JsVal
  totalBalanceAfterTax : ℤ → JsVal
  totalBalanceReal : ℤ → JsVal
  totalIncomeGross : ℤ → JsVal
  totalIncomeAfterTax : ℤ → JsVal
  totalIncomeReal : ℤ → JsVal

/-- `buildTotalInvestmentAggregates` from `chart-builders.ts`. -/
def buildTotalInvestmentAggregates (mexp : ℚ → ℚ) (nowYear : ℤ) (m : Model) :
    AggChart :=
  if hasEntitiesOf m then
    let invCs := invChartsOf mexp nowYear m
    let b := aggBeginYear mexp nowYear m
    let e := aggEndYear mexp nowYear m
    let taxA := normalizePct m.taxPercentage
    let inflA := normalizePct m.inflationPercentage
    let hasInv := !(invNamesOf m).isEmpty
    { beginYear := b
      endYear := e
      hasBalanceSeries := hasInv
      totalBalance := fun y =>
        if inHorizonB b e y && hasInv then .num (balSumAt invCs y) else .undefined
      totalBalanceAfterTax := fun y =>
        if inHorizonB b e y && hasInv then
          .num ((jround (balSumAt invCs y * (1 - taxA)) : ℤ) : ℚ)
        else .undefined
      totalBalanceReal := fun y =>
        if inHorizonB b e y && hasInv then
          .num ((jround (balSumAt invCs y * (1 - taxA) / (1 + inflA) ^ ((y - b).toNat)) : ℤ) : ℚ)
        else .undefined
      totalIncomeGross := fun y =>
        if inHorizonB b e y then
          if (aggIncomeAcc mexp nowYear m y).anyIncome then
            .num ((jround (aggIncomeAcc mexp nowYear m y).gSum : ℤ) : ℚ)
          else .null
        else .undefined
      totalIncomeAfterTax := fun y =>
        if inHorizonB b e y then
          if (aggIncomeAcc mexp nowYear m y).anyIncome then
            .num ((jround (aggIncomeAcc mexp nowYear m y).aTSum : ℤ) : ℚ)
          else .null
        else .undefined
      totalIncomeReal := fun y =>
        if inHorizonB b e y then
          if (aggIncomeAcc mexp nowYear m y).anyIncome then
            .num ((jround (aggIncomeAcc mexp nowYear m y).rATSum : ℤ) : ℚ)
          else .null
        else .undefined }
  else
    { beginYear := nowYear
      endYear := (nowYear : ℚ)
      hasBalanceSeries := false
      totalBalance := fun _ => .undefined
      totalBalanceAfterTax := fun _ => .undefined
      totalBalanceReal := fun _ => .undefined
      totalIncomeGross := fun _ => .undefined
      totalIncomeAfterTax := fun _ => .undefined
      totalIncomeReal := fun _ => .undefined }

/-! ### Proof-side views of the aggregation loop -/

/-- The numeric value of a series entry, with `null`/absent read as `0`. -/
def qOfJs (v : JsVal) : ℚ := (v.toNum).getD 0

/-- The (gross, after-tax, real) triple an investment chart presents to the
income loop at year `y`. -/
def tripleOfInv (c : InvChart) (y : ℤ) : JsVal × JsVal × JsVal :=
  (c.wGross y, c.wAfterTax y, c.wReal y)

/-- The (gross, after-tax, real) triple of a wage or annuity chart at `y`. -/
def tripleOfIncome (c : IncomeChart) (y : ℤ) : JsVal × JsVal × JsVal :=
  (c.gross y, c.afterTax y, c.real y)

/-- A wage's triple as the income loop sees it: all-absent at the wage's own
stop-work year (the suppression skip), its series values otherwise. -/
def tripleOfWagePair (stops : String → Option (Option ℚ)) (p : String × IncomeChart)
    (y : ℤ) : JsVal × JsVal × JsVal :=
  if suppressedAt stops p.1 y then (.undefined, .undefined, .undefined) else tripleOfIncome p.2 y

/-- Every contributing entity's triple at year `y`, in loop order:
investment withdrawals, annuities, then wages with stop-year suppression. -/
def allIncomeTriplesAt (mexp : ℚ → ℚ) (nowYear : ℤ) (m : Model) (y : ℤ) :
    List (JsVal × JsVal × JsVal) :=
  (invChartsOf mexp nowYear m).map (fun c => tripleOfInv c y)
    ++ (annChartsOf nowYear m).map (fun c => tripleOfIncome c y)
    ++ (wagePairsOf nowYear m).map (fun p => tripleOfWagePair (stopsOf m) p y)

/-- Whether some entity reported a numeric value (in any of its three
series) at year `y`. -/
def anyReporterAt (ts : List (JsVal × JsVal × JsVal)) : Bool :=
  ts.any (fun t => t.1.isNum || t.2.1.isNum || t.2.2.isNum)

/-- Sum of all gross contributions, nulls and absences as `0`. -/
def sumGOf (ts : List (JsVal × JsVal × JsVal)) : ℚ := (ts.map (fun t => qOfJs t.1)).sum

/-- Sum of all after-tax contributions, nulls and absences as `0`. -/
def sumATOf (ts : List (JsVal × JsVal × JsVal)) : ℚ := (ts.map (fun t => qOfJs t.2.1)).sum

/-- Sum of all real contributions, nulls and absences as `0`. -/
def sumRATOf (ts : List (JsVal × JsVal × JsVal)) : ℚ := (ts.map (fun t => qOfJs t.2.2)).sum

/-- The investment balance values that are numeric at year `y`. -/
def numericBalancesAt (cs : List InvChart) (y : ℤ) : List ℚ :=
  cs.filterMap (fun c => (c.balanceValues y).toNum)

/-- Modelled from the spec: the wage real-income value as §4.2 and the claim
describe it — the **unrounded** after-tax monthly income deflated and then
rounded once, independently of the other two roundings.  Compared against the
source-derived `wageRealVal`, which divides the already-rounded after-tax
value. -/
def specWageRealUnchained (W : WageParams) (i : ℕ) : ℤ :=
  jround (wageMonthlyIncome W i * (1 - W.taxRate) / (1 + W.inflRate) ^ i)

/-! ### Concrete instances used by witnesses and counterexamples -/

/-- Stand-in for `Math.exp` when every rate in the model is `0`
(`Math.exp 0 = 1`). -/
def mexp1 : ℚ → ℚ := fun _ => 1

/-- A computable exp-like stand-in (degree-3 Taylor polynomial of `exp`);
it satisfies `1 ≤ mexpPoly x` for `0 ≤ x`, the only property of `Math.exp`
the monotonicity claim relies on. -/
def mexpPoly : ℚ → ℚ := fun x => 1 + x + x ^ 2 / 2 + x ^ 3 / 6

/-- Wage `annual = 199.2`, no raise, `tax = 0`, `inflation = 1` (100%),
two-year horizon: at offset 1 the unrounded after-tax monthly income is
`16.6`, whose deflated roundings differ depending on chaining. -/
def wageChainModel : Model :=
  { wages := [(("w"), { annual := some (996/5), raise := some 0, stopWorkDate := none })]
    investments := []
    annuities := []
    taxPercentage := some 0
    inflationPercentage := some 1
    retireDate := none
    yearsAfterRetire := none
    planningHorizonYears := some 2 }

/-- An investment whose stored withdrawal rate `150` normalizes to `1.5`, so
the first-year withdrawal `150` exceeds the grown balance `100` and is
capped. -/
def capModel : Model :=
  { wages := []
    investments := [(("i"),
      { balance := some 100, rate := none, withdrawalDate := some ("01/01/2025")
        withdrawalRate := some 150, contributionsFrom := none, contributionRate := none })]
    annuities := []
    taxPercentage := none
    inflationPercentage := none
    retireDate := none
    yearsAfterRetire := none
    planningHorizonYears := some 1 }

/-- An investment funded from a wage whose `annual` is negative: the claim's
contribution formula is `-1200`, the code contributes `0`. -/
def negAnnualModel : Model :=
  { wages := [(("w"), { annual := some (-12000), raise := some 0, stopWorkDate := none })]
    investments := [(("i"),
      { balance := some 0, rate := none, withdrawalDate := none
        withdrawalRate := none, contributionsFrom := some ("w"), contributionRate := some (1/10) })]
    annuities := []
    taxPercentage := none
    inflationPercentage := none
    retireDate := none
    yearsAfterRetire := none
    planningHorizonYears := some 1 }

/-- An investment with a valid withdrawal date and a **negative** stored
withdrawal rate `-0.5`: the withdrawal never activates, so the series stay
`null` although the claim's activity condition holds. -/
def negWRateModel : Model :=
  { wages := []
    investments := [(("i"),
      { balance := some 100, rate := none, withdrawalDate := some ("01/01/2025")
        withdrawalRate := some (-1/2), contributionsFrom := none, contributionRate := none })]
    annuities := []
    taxPercentage := none
    inflationPercentage := none
    retireDate := none
    yearsAfterRetire := none
    planningHorizonYears := some 1 }

/-- An investment with a **negative** initial balance and positive growth
rate `0.7` (so `mexpPoly 0.7 > 1`): the balance series strictly decreases. -/
def negBalanceModel : Model :=
  { wages := []
    investments := [(("i"),
      { balance := some (-100), rate := some (7/10), withdrawalDate := none
        withdrawalRate := none, contributionsFrom := none, contributionRate := none })]
    annuities := []
    taxPercentage := none
    inflationPercentage := none
    retireDate := none
    yearsAfterRetire := none
    planningHorizonYears := some 2 }

/-- A plain growing investment (balance `100`, rate `0`, no withdrawals, no
contributions) over a two-year horizon. -/
def growModel : Model :=
  { wages := []
    investments := [(("i"),
      { balance := some 100, rate := none, withdrawalDate := none
        withdrawalRate := none, contributionsFrom := none, contributionRate := none })]
    annuities := []
    taxPercentage := none
    inflationPercentage := none
    retireDate := none
    yearsAfterRetire := none
    planningHorizonYears := some 2 }

/-- Two flat investments (balances `100` and `50`) over a one-year horizon. -/
def twoInvModel : Model :=
  { wages := []
    investments :=
      [(("a"),
        { balance := some 100, rate := none, withdrawalDate := none
          withdrawalRate := none, contributionsFrom := none, contributionRate := none }),
       (("b"),
        { balance := some 50, rate := none, withdrawalDate := none
          withdrawalRate := none, contributionsFrom := none, contributionRate := none })]
    annuities := []
    taxPercentage := none
    inflationPercentage := none
    retireDate := none
    yearsAfterRetire := none
    planningHorizonYears := some 1 }

/-- One wage (`annual = 1200`, no raise) stopping in 2026, horizon
2025–2027. -/
def stopWageModel : Model :=
  { wages := [(("w"),
      { annual := some 1200, raise := some 0, stopWorkDate := some ("12/31/2026") })]
    investments := []
    annuities := []
    taxPercentage := none
    inflationPercentage := none
    retireDate := none
    yearsAfterRetire := none
    planningHorizonYears := some 3 }

/-- A model with a stop-work date, a retire date and a **negative** planning
horizon (which must be ignored). -/
def fallbackModel : Model :=
  { wages := [(("w"),
      { annual := some 0, raise := none, stopWorkDate := some ("12/31/2030") })]
    investments := []
    annuities := []
    taxPercentage := none
    inflationPercentage := none
    retireDate := some ("01/01/2030")
    yearsAfterRetire := some 5
    planningHorizonYears := some (-5) }

/-- The same model with a positive planning horizon of `3` years. -/
def overrideModel : Model :=
  { wages := [(("w"),
      { annual := some 0, raise := none, stopWorkDate := some ("12/31/2030") })]
    investments := []
    annuities := []
    taxPercentage := none
    inflationPercentage := none
    retireDate := some ("01/01/2030")
    yearsAfterRetire := some 5
    planningHorizonYears := some 3 }

/-- The same model with a fractional planning horizon `0.5`: the wage end
year is clamped back to the begin year. -/
def halfHorizonModel : Model :=
  { wages := [(("w"),
      { annual := some 0, raise := none, stopWorkDate := some ("12/31/2030") })]
    investments := []
    annuities := []
    taxPercentage := none
    inflationPercentage := none
    retireDate := some ("01/01/2030")
    yearsAfterRetire := some 5
    planningHorizonYears := some (1/2) }

/-- Folding the income step over a list of (gross, after-tax, real) triples. -/
def foldTriples (ts : List (JsVal × JsVal × JsVal)) (acc : IncAcc) : IncAcc :=
  ts.foldl (fun a t => stepIncome a t.1 t.2.1 t.2.2) acc

/-- A wage of `1200`/year feeding 10% contributions into an investment. -/
def contribModel : Model :=
  { wages := [(("w"), { annual := some 1200, raise := some 0, stopWorkDate := none })]
    investments := [(("i"),
      { balance := some 0, rate := none, withdrawalDate := none
        withdrawalRate := none, contributionsFrom := some ("w"), contributionRate := some (1/10) })]
    annuities := []
    taxPercentage := none
    inflationPercentage := none
    retireDate := none
    yearsAfterRetire := none
    planningHorizonYears := some 1 }

/-! ### Helper lemmas -/

unseal Rat.add Rat.mul Rat.inv Rat.sub Rat.ofScientific

theorem stepIncome_absent (acc : IncAcc) : stepIncome acc .undefined .undefined .undefined = acc := rfl

theorem stepIncome_anyIncome (acc : IncAcc) (g a r : JsVal) :
    (stepIncome acc g a r).anyIncome = (acc.anyIncome || g.isNum) := by
  cases g <;> cases a <;> cases r <;> simp [stepIncome, JsVal.isNum, JsVal.toNum]

theorem stepIncome_gSum (acc : IncAcc) (g a r : JsVal) :
    (stepIncome acc g a r).gSum = acc.gSum + qOfJs g := by
  cases g <;> cases a <;> cases r <;> simp [stepIncome, qOfJs, JsVal.toNum]

theorem stepIncome_aTSum (acc : IncAcc) (g a r : JsVal) :
    (stepIncome acc g a r).aTSum = acc.aTSum + qOfJs a := by
  cases g <;> cases a <;> cases r <;> simp [stepIncome, qOfJs, JsVal.toNum]

theorem stepIncome_rATSum (acc : IncAcc) (g a r : JsVal) :
    (stepIncome acc g a r).rATSum = acc.rATSum + qOfJs r := by
  cases g <;> cases a <;> cases r <;> simp [stepIncome, qOfJs, JsVal.toNum]

theorem foldTriples_anyIncome (ts : List (JsVal × JsVal × JsVal)) :
    ∀ acc : IncAcc,
      (foldTriples ts acc).anyIncome = (acc.anyIncome || ts.any (fun t => t.1.isNum)) := by
  induction ts with
  | nil => intro acc; simp [foldTriples]
  | cons t ts ih =>
      intro acc
      have h1 : foldTriples (t :: ts) acc = foldTriples ts (stepIncome acc t.1 t.2.1 t.2.2) := rfl
      rw [h1, ih, stepIncome_anyIncome, List.any_cons, Bool.or_assoc]

theorem foldTriples_gSum (ts : List (JsVal × JsVal × JsVal)) :
    ∀ acc : IncAcc, (foldTriples ts acc).gSum = acc.gSum + sumGOf ts := by
  induction ts with
  | nil => intro acc; simp [foldTriples, sumGOf]
  | cons t ts ih =>
      intro acc
      have h1 : foldTriples (t :: ts) acc = foldTriples ts (stepIncome acc t.1 t.2.1 t.2.2) := rfl
      rw [h1, ih, stepIncome_gSum]
      simp [sumGOf]
      ring

theorem foldTriples_aTSum (ts : List (JsVal × JsVal × JsVal)) :
    ∀ acc : IncAcc, (foldTriples ts acc).aTSum = acc.aTSum + sumATOf ts := by
  induction ts with
  | nil => intro acc; simp [foldTriples, sumATOf]
  | cons t ts ih =>
      intro acc
      have h1 : foldTriples (t :: ts) acc = foldTriples ts (stepIncome acc t.1 t.2.1 t.2.2) := rfl
      rw [h1, ih, stepIncome_aTSum]
      simp [sumATOf]
      ring

theorem foldTriples_rATSum (ts : List (JsVal × JsVal × JsVal)) :
    ∀ acc : IncAcc, (foldTriples ts acc).rATSum = acc.rATSum + sumRATOf ts := by
  induction ts with
  | nil => intro acc; simp [foldTriples, sumRATOf]
  | cons t ts ih =>
      intro acc
      have h1 : foldTriples (t :: ts) acc = foldTriples ts (stepIncome acc t.1 t.2.1 t.2.2) := rfl
      rw [h1, ih, stepIncome_rATSum]
      simp [sumRATOf]
      ring

theorem foldTriples_append (xs ys : List (JsVal × JsVal × JsVal)) (acc : IncAcc) :
    foldTriples (xs ++ ys) acc = foldTriples ys (foldTriples xs acc) := by
  simp [foldTriples, List.foldl_append]

theorem invFoldInc_eq (cs : List InvChart) (y : ℤ) (acc : IncAcc) :
    invFoldInc cs y acc = foldTriples (cs.map (fun c => tripleOfInv c y)) acc := by
  simp only [invFoldInc, foldTriples, List.foldl_map, tripleOfInv]

theorem annFoldInc_eq (cs : List IncomeChart) (y : ℤ) (acc : IncAcc) :
    annFoldInc cs y acc = foldTriples (cs.map (fun c => tripleOfIncome c y)) acc := by
  simp only [annFoldInc, foldTriples, List.foldl_map, tripleOfIncome]

theorem wageFoldInc_eq (ps : List (String × IncomeChart))
    (stops : String → Option (Option ℚ)) (y : ℤ) :
    ∀ acc : IncAcc,
      wageFoldInc ps stops y acc
        = foldTriples (ps.map (fun p => tripleOfWagePair stops p y)) acc := by
  induction ps with
  | nil => intro acc; rfl
  | cons p ps ih =>
      intro acc
      have h1 : wageFoldInc (p :: ps) stops y acc
          = wageFoldInc ps stops y
              (if suppressedAt stops p.1 y then acc
               else stepIncome acc (p.2.gross y) (p.2.afterTax y) (p.2.real y)) := rfl
      rw [h1, ih]
      cases hs : suppressedAt stops p.1 y <;>
        simp [tripleOfWagePair, tripleOfIncome, hs, foldTriples, stepIncome_absent]

theorem aggIncomeAcc_eq (mexp : ℚ → ℚ) (nowYear : ℤ) (m : Model) (y : ℤ) :
    aggIncomeAcc mexp nowYear m y
      = foldTriples (allIncomeTriplesAt mexp nowYear m y) ⟨false, 0, 0, 0⟩ := by
  rw [aggIncomeAcc, allIncomeTriplesAt, invFoldInc_eq, annFoldInc_eq, wageFoldInc_eq,
    foldTriples_append, foldTriples_append]

theorem balSumAt_aux (y : ℤ) (cs : List InvChart) :
    ∀ init : ℚ,
      cs.foldl
          (fun s c =>
            match (c.balanceValues y).toNum with
            | some q => s + q
            | none => s)
          init
        = init + (numericBalancesAt cs y).sum := by
  induction cs with
  | nil => intro init; simp [numericBalancesAt]
  | cons c cs ih =>
      intro init
      rw [List.foldl_cons, ih]
      cases h : (c.balanceValues y).toNum with
      | none => simp [numericBalancesAt, List.filterMap_cons, h]
      | some q =>
          simp [numericBalancesAt, List.filterMap_cons, h]
          ring

theorem balSumAt_eq (cs : List InvChart) (y : ℤ) :
    balSumAt cs y = (numericBalancesAt cs y).sum := by
  rw [balSumAt, balSumAt_aux]
  ring

theorem jround_mono {q r : ℚ} (h : q ≤ r) : jround q ≤ jround r :=
  Int.floor_le_floor (add_le_add_right h _)

theorem seriesOf_isNum (b : ℤ) (e : ℚ) (f : ℕ → ℤ) (y : ℤ) :
    (seriesOf b e f y).isNum = inHorizonB b e y := by
  cases h : inHorizonB b e y <;> simp [seriesOf, h, JsVal.isNum, JsVal.toNum]

theorem annSeriesOf_isNum (A : AnnParams) (e : ℚ) (f : ℕ → ℤ) (y : ℤ) :
    (annSeriesOf A e f y).isNum = (inHorizonB A.beginYear e y && annActiveB A y) := by
  cases h1 : inHorizonB A.beginYear e y <;> cases h2 : annActiveB A y <;>
    simp [annSeriesOf, h1, h2, JsVal.isNum, JsVal.toNum]

theorem invNullableSeriesOf_isNum (P : InvParams) (e : ℚ) (f : ℕ → ℚ) (y : ℤ) :
    (invNullableSeriesOf P e f y).isNum = (inHorizonB P.beginYear e y && wActiveB P y) := by
  cases h1 : inHorizonB P.beginYear e y <;> cases h2 : wActiveB P y <;>
    simp [invNullableSeriesOf, h1, h2, JsVal.isNum, JsVal.toNum]

theorem together_allTriples (mexp : ℚ → ℚ) (nowYear : ℤ) (m : Model) (y : ℤ) :
    ∀ t ∈ allIncomeTriplesAt mexp nowYear m y,
      t.2.1.isNum = t.1.isNum ∧ t.2.2.isNum = t.1.isNum := by
  intro t ht
  rw [allIncomeTriplesAt] at ht
  rcases List.mem_append.1 ht with h12 | h3
  · rcases List.mem_append.1 h12 with h1 | h2
    · obtain ⟨c, hc, rfl⟩ := List.mem_map.1 h1
      obtain ⟨n, hn, rfl⟩ := List.mem_map.1 hc
      constructor <;>
        simp [tripleOfInv, buildInvestmentBalanceAndWithdrawalChart, invChartOfParams,
          invNullableSeriesOf_isNum]
    · obtain ⟨c, hc, rfl⟩ := List.mem_map.1 h2
      obtain ⟨n, hn, rfl⟩ := List.mem_map.1 hc
      constructor <;>
        simp [tripleOfIncome, buildAnnuityMonthlyIncomeChart, annSeriesOf_isNum]
  · obtain ⟨p, hp, rfl⟩ := List.mem_map.1 h3
    cases hs : suppressedAt (stopsOf m) p.1 y
    · have hp2 := (List.of_mem_zip hp).2
      rw [wageChartsOf] at hp2
      obtain ⟨n, hn, hne⟩ := List.mem_map.1 hp2
      constructor <;>
        simp [tripleOfWagePair, hs, tripleOfIncome, ← hne,
          buildWageMonthlyIncomeChart, seriesOf_isNum]
    · constructor <;> simp [tripleOfWagePair, hs, JsVal.isNum, JsVal.toNum]

theorem anyReporter_eq_gross (ts : List (JsVal × JsVal × JsVal))
    (h : ∀ t ∈ ts, t.2.1.isNum = t.1.isNum ∧ t.2.2.isNum = t.1.isNum) :
    anyReporterAt ts = ts.any (fun t => t.1.isNum) := by
  induction ts with
  | nil => rfl
  | cons t ts ih =>
      have ht := h t (by simp)
      rw [anyReporterAt, List.any_cons, ht.1, ht.2, ← anyReporterAt,
        ih (fun a ha => h a (by simp [ha])), List.any_cons]
      cases t.1.isNum <;> simp

theorem wActiveB_iff (P : InvParams) (y : ℤ) :
    wActiveB P y = true
      ↔ ∃ q, P.withdrawalYear = some (some q) ∧ q ≤ (y : ℚ) ∧ 0 < P.withdrawalRate := by
  rcases hw : P.withdrawalYear with _ | _ | q <;> simp [wActiveB, hw, and_assoc]

theorem wActiveB_rate_nonpos (P : InvParams) (y : ℤ) (h : P.withdrawalRate ≤ 0) :
    wActiveB P y = false := by
  rcases hw : P.withdrawalYear with _ | _ | q <;>
    simp [wActiveB, hw, decide_eq_false (not_lt.2 h)]

theorem withdrawalOf_rate_nonpos (P : InvParams) (bal : ℚ) (i : ℕ)
    (h : P.withdrawalRate ≤ 0) : withdrawalOf P bal i = 0 := by
  rw [withdrawalOf, wActiveB_rate_nonpos P _ h]
  simp

theorem contributionAt_rate_nonpos (P : InvParams) (bal : ℚ) (i : ℕ)
    (h : P.contributionRate ≤ 0) : contributionAt P bal i = 0 := by
  rw [contributionAt, if_neg (not_lt.2 h)]

theorem hasEntitiesOf_of_inv (m : Model) (h : invNamesOf m ≠ []) :
    hasEntitiesOf m = true := by
  rw [hasEntitiesOf]
  rcases hn : invNamesOf m with _ | ⟨a, l⟩
  · exact absurd hn h
  · simp

theorem balStart_nonneg_mono (P : InvParams) (hw : P.withdrawalRate = 0)
    (he : 1 ≤ P.expRate) (hb : 0 ≤ P.initialBalance)
    (hc : ∀ i, 0 ≤ contributionAt P (balStart P i) i) :
    ∀ i, 0 ≤ balStart P i ∧ balStart P i ≤ balStart P (i + 1) := by
  have hstep : ∀ i, 0 ≤ balStart P i →
      balStart P i ≤ balStart P (i + 1) ∧ 0 ≤ balStart P (i + 1) := by
    intro i hbi
    have hbal : balStart P (i + 1)
        = (balStart P i + contributionAt P (balStart P i) i) * P.expRate := by
      show endOfYearBal P (balStart P i) i = _
      rw [endOfYearBal, balAfterGrowth, balAfterContribution,
        withdrawalOf_rate_nonpos P _ i (le_of_eq hw)]
      ring
    have hbac : 0 ≤ balStart P i + contributionAt P (balStart P i) i :=
      add_nonneg hbi (hc i)
    have h1 : balStart P i + contributionAt P (balStart P i) i
        ≤ (balStart P i + contributionAt P (balStart P i) i) * P.expRate :=
      le_mul_of_one_le_right hbac he
    refine ⟨?_, ?_⟩
    · calc balStart P i ≤ balStart P i + contributionAt P (balStart P i) i :=
            le_add_of_nonneg_right (hc i)
        _ ≤ _ := h1
        _ = balStart P (i + 1) := hbal.symm
    · rw [hbal]
      exact mul_nonneg hbac (le_trans zero_le_one he)
  intro i
  induction i with
  | zero => exact ⟨hb, (hstep 0 hb).1⟩
  | succ n ih => exact ⟨(hstep n ih.1).2, (hstep (n + 1) (hstep n ih.1).2).1⟩

theorem isDigit_ne (c d : Char) (h : c.isDigit = true) (hd : d.isDigit = false) :
    ¬(c = d) := by
  intro he
  rw [he, hd] at h
  cases h

theorem digit_not_ws (c : Char) (h : c.isDigit = true) : isJsWs c = false := by
  cases hw : isJsWs c
  · rfl
  · exfalso
    rw [isJsWs] at hw
    simp only [Bool.or_eq_true, decide_eq_true_eq] at hw
    rcases hw with ((((h1 | h1) | h1) | h1) | h1) | h1 <;> rw [h1] at h <;> exact absurd h (by decide)

theorem jsStrToNum_digits (d5 d6 d7 d8 : Char)
    (h5 : d5.isDigit = true) (h6 : d6.isDigit = true)
    (h7 : d7.isDigit = true) (h8 : d8.isDigit = true) :
    jsStrToNum (String.mk [d5, d6, d7, d8])
      = some ((digitsToNat [d5, d6, d7, d8] : ℕ) : ℚ) := by
  rw [jsStrToNum]
  simp only [String.data]
  rw [List.dropWhile_cons_of_neg (by simp [digit_not_ws d5 h5])]
  simp only [List.reverse_cons, List.reverse_nil, List.nil_append, List.cons_append,
    List.singleton_append]
  rw [List.dropWhile_cons_of_neg (by simp [digit_not_ws d8 h8])]
  simp only [List.reverse_cons, List.reverse_nil, List.nil_append, List.cons_append,
    List.singleton_append]
  rw [if_neg (isDigit_ne d5 '+' h5 (by decide)), if_neg (isDigit_ne d5 '-' h5 (by decide))]
  rw [parseDec]
  simp only [takeDigits, h5, h6, h7, h8, if_pos]
  simp [parseExpPart]

theorem extractYear_wellFormed (d1 d2 d3 d4 d5 d6 d7 d8 : Char)
    (h1 : d1.isDigit = true) (h2 : d2.isDigit = true)
    (h3 : d3.isDigit = true) (h4 : d4.isDigit = true)
    (h5 : d5.isDigit = true) (h6 : d6.isDigit = true)
    (h7 : d7.isDigit = true) (h8 : d8.isDigit = true) :
    extractYear (some (String.mk [d1, d2, '/', d3, d4, '/', d5, d6, d7, d8]))
      = some (some ((digitsToNat [d5, d6, d7, d8] : ℕ) : ℚ)) := by
  have hne : ¬(String.mk [d1, d2, '/', d3, d4, '/', d5, d6, d7, d8] = "") := by
    simp [String.ext_iff]
  have hre : regexTestDate (String.mk [d1, d2, '/', d3, d4, '/', d5, d6, d7, d8]) = true := by
    simp [regexTestDate, hasDatePat, datePatAt, h1, h2, h3, h4, h5, h6, h7, h8]
  have hsplit : splitOnSlash [d1, d2, '/', d3, d4, '/', d5, d6, d7, d8]
      = [[d1, d2], [d3, d4], [d5, d6, d7, d8]] := by
    simp [splitOnSlash, isDigit_ne d1 '/' h1 (by decide), isDigit_ne d2 '/' h2 (by decide),
      isDigit_ne d3 '/' h3 (by decide), isDigit_ne d4 '/' h4 (by decide),
      isDigit_ne d5 '/' h5 (by decide), isDigit_ne d6 '/' h6 (by decide),
      isDigit_ne d7 '/' h7 (by decide), isDigit_ne d8 '/' h8 (by decide)]
  rw [extractYear, if_neg hne, if_pos hre]
  simp only [String.data, hsplit]
  simp [jsStrToNum_digits d5 d6 d7 d8 h5 h6 h7 h8]

/-- C1: in the investment projector, whenever the withdrawal is active
(`y >= withdrawalYear`, `withdrawalRate > 0`) in a horizon year and the
start-of-year balance times the withdrawal rate exceeds the balance after
contribution and growth, the realized withdrawal equals that balance exactly
and the reported end-of-year balance is exactly `0`. -/
theorem c1_withdrawal_cap (mexp : ℚ → ℚ) (nowYear : ℤ) (m : Model)
    (investmentName : String) (y : ℤ) (wy : ℚ)
    (hy : inHorizonB nowYear (retireEndYear nowYear m) y = true)
    (hwy : (mkInvParams mexp nowYear m investmentName).withdrawalYear = some (some wy))
    (hyge : wy ≤ (y : ℚ))
    (hrate : 0 < (mkInvParams mexp nowYear m investmentName).withdrawalRate)
    (hcap : balAfterGrowthAt (mkInvParams mexp nowYear m investmentName) ((y - nowYear).toNat)
        < balStart (mkInvParams mexp nowYear m investmentName) ((y - nowYear).toNat)
          * (mkInvParams mexp nowYear m investmentName).withdrawalRate) :
    withdrawalAnnualAt (mkInvParams mexp nowYear m investmentName) ((y - nowYear).toNat)
        = balAfterGrowthAt (mkInvParams mexp nowYear m investmentName) ((y - nowYear).toNat)
      ∧ (buildInvestmentBalanceAndWithdrawalChart mexp nowYear m investmentName).balanceValues y
        = JsVal.num 0 := by
  set P := mkInvParams mexp nowYear m investmentName with hPdef
  have hle : nowYear ≤ y := by
    have h := hy
    rw [inHorizonB, Bool.and_eq_true, decide_eq_true_eq, decide_eq_true_eq] at h
    exact h.1
  have hyi : P.beginYear + (((y - nowYear).toNat : ℤ)) = y := by
    show nowYear + _ = y
    rw [Int.toNat_of_nonneg (sub_nonneg.2 hle)]
    ring
  have hact : wActiveB P (P.beginYear + (((y - nowYear).toNat : ℤ))) = true := by
    rw [hyi]
    exact (wActiveB_iff P y).2 ⟨wy, hwy, hyge, hrate⟩
  rw [balAfterGrowthAt] at hcap
  have hwd : withdrawalAnnualAt P ((y - nowYear).toNat)
      = balAfterGrowthAt P ((y - nowYear).toNat) := by
    rw [withdrawalAnnualAt, balAfterGrowthAt, withdrawalOf, if_pos hact]
    simp only []
    rw [if_pos hcap]
  refine ⟨hwd, ?_⟩
  have hrep : invBalReportedAt P ((y - nowYear).toNat) = 0 := by
    rw [invBalReportedAt, endOfYearBal]
    have hww : withdrawalOf P (balStart P ((y - nowYear).toNat)) ((y - nowYear).toNat)
        = balAfterGrowth P (balStart P ((y - nowYear).toNat)) ((y - nowYear).toNat) := hwd
    rw [hww, sub_self]
    norm_num [jround]
  show seriesOf P.beginYear (retireEndYear nowYear m) (invBalReportedAt P) y = JsVal.num 0
  have hyh : inHorizonB P.beginYear (retireEndYear nowYear m) y = true := hy
  have hPb : P.beginYear = nowYear := rfl
  rw [seriesOf]
  simp only [hPb]
  rw [if_pos hy]
  simp [hrep]

/-- Witness for C1 at a concrete capped input: stored withdrawal rate `150`
normalizes to `1.5`, balance `100`, zero growth. -/
theorem c1_withdrawal_cap_witness :
    withdrawalAnnualAt (mkInvParams mexp1 2025 capModel ("i")) 0
        = balAfterGrowthAt (mkInvParams mexp1 2025 capModel ("i")) 0
      ∧ (buildInvestmentBalanceAndWithdrawalChart mexp1 2025 capModel ("i")).balanceValues 2025
        = JsVal.num 0 := by
  have h := c1_withdrawal_cap mexp1 2025 capModel ("i") 2025 2025
    (by decide) (by decide) (by norm_num) (by decide) (by decide)
  simpa using h

theorem invNullableSeriesOf_in (P : InvParams) (e : ℚ) (f : ℕ → ℚ) (y : ℤ)
    (hy : inHorizonB P.beginYear e y = true) :
    invNullableSeriesOf P e f y
      = if wActiveB P y then JsVal.num ((jround (f ((y - P.beginYear).toNat)) : ℤ) : ℚ)
        else JsVal.null := by
  rw [invNullableSeriesOf, if_pos hy]

/-- C5 counterexample to the claim as stated: a valid withdrawal date, a year
past it, and a nonzero (negative) normalized withdrawal rate, yet the series
value is `null`, not a number. -/
theorem c5_null_cex :
    (buildInvestmentBalanceAndWithdrawalChart mexp1 2025 negWRateModel ("i")).wGross 2025
        = JsVal.null
      ∧ extractYear
            ((List.lookup ("i") negWRateModel.investments).getD investmentDefault).withdrawalDate
          = some (some 2025)
      ∧ (2025 : ℚ) ≤ ((2025 : ℤ) : ℚ)
      ∧ normalizePct
            ((List.lookup ("i") negWRateModel.investments).getD investmentDefault).withdrawalRate
          ≠ 0
      ∧ inHorizonB 2025 (retireEndYear 2025 negWRateModel) 2025 = true := by
  decide

/-- C5 (amended): within the horizon, the three withdrawal series hold `null`
exactly when no numeric withdrawal year is extracted from `withdrawalDate`,
or the year precedes it, or the normalized withdrawal rate is **not strictly
positive** (the claim said "= 0"); otherwise all three hold numbers. -/
theorem c5_withdrawal_null_iff (mexp : ℚ → ℚ) (nowYear : ℤ) (m : Model)
    (investmentName : String) (y : ℤ)
    (hy : inHorizonB nowYear (retireEndYear nowYear m) y = true) :
    (((buildInvestmentBalanceAndWithdrawalChart mexp nowYear m investmentName).wGross y
          = JsVal.null
        ∧ (buildInvestmentBalanceAndWithdrawalChart mexp nowYear m investmentName).wAfterTax y
          = JsVal.null
        ∧ (buildInvestmentBalanceAndWithdrawalChart mexp nowYear m investmentName).wReal y
          = JsVal.null)
      ↔ ¬(∃ q : ℚ,
            extractYear
                ((List.lookup investmentName m.investments).getD investmentDefault).withdrawalDate
              = some (some q)
            ∧ q ≤ (y : ℚ)
            ∧ 0 < normalizePct
                ((List.lookup investmentName m.investments).getD investmentDefault).withdrawalRate))
    ∧ ((∃ q : ℚ,
          extractYear
              ((List.lookup investmentName m.investments).getD investmentDefault).withdrawalDate
            = some (some q)
          ∧ q ≤ (y : ℚ)
          ∧ 0 < normalizePct
              ((List.lookup investmentName m.investments).getD investmentDefault).withdrawalRate)
        → ∃ a b c : ℚ,
            (buildInvestmentBalanceAndWithdrawalChart mexp nowYear m investmentName).wGross y
              = JsVal.num a
            ∧ (buildInvestmentBalanceAndWithdrawalChart mexp nowYear m investmentName).wAfterTax y
              = JsVal.num b
            ∧ (buildInvestmentBalanceAndWithdrawalChart mexp nowYear m investmentName).wReal y
              = JsVal.num c) := by
  set P := mkInvParams mexp nowYear m investmentName with hPdef
  have hA : wActiveB P y = true
      ↔ ∃ q : ℚ,
          extractYear
              ((List.lookup investmentName m.investments).getD investmentDefault).withdrawalDate
            = some (some q)
          ∧ q ≤ (y : ℚ)
          ∧ 0 < normalizePct
              ((List.lookup investmentName m.investments).getD investmentDefault).withdrawalRate :=
    wActiveB_iff P y
  have hyP : inHorizonB P.beginYear (retireEndYear nowYear m) y = true := hy
  have hg := invNullableSeriesOf_in P (retireEndYear nowYear m) (invWGrossMonthlyAt P) y hyP
  have ha := invNullableSeriesOf_in P (retireEndYear nowYear m) (invWAfterTaxAt P) y hyP
  have hr := invNullableSeriesOf_in P (retireEndYear nowYear m) (invWRealAt P) y hyP
  have hcg : (buildInvestmentBalanceAndWithdrawalChart mexp nowYear m investmentName).wGross y
      = invNullableSeriesOf P (retireEndYear nowYear m) (invWGrossMonthlyAt P) y := rfl
  have hca : (buildInvestmentBalanceAndWithdrawalChart mexp nowYear m investmentName).wAfterTax y
      = invNullableSeriesOf P (retireEndYear nowYear m) (invWAfterTaxAt P) y := rfl
  have hcr : (buildInvestmentBalanceAndWithdrawalChart mexp nowYear m investmentName).wReal y
      = invNullableSeriesOf P (retireEndYear nowYear m) (invWRealAt P) y := rfl
  cases hw : wActiveB P y
  · rw [hw] at hg ha hr
    simp only [if_false, Bool.false_eq_true] at hg ha hr
    constructor
    · rw [hcg, hca, hcr, hg, ha, hr]
      constructor
      · intro _ hAp
        have := hA.2 hAp
        rw [hw] at this
        cases this
      · intro _
        exact ⟨rfl, rfl, rfl⟩
    · intro hAp
      have := hA.2 hAp
      rw [hw] at this
      cases this
  · rw [hw] at hg ha hr
    simp only [if_true] at hg ha hr
    constructor
    · rw [hcg, hca, hcr, hg, ha, hr]
      constructor
      · intro hnull
        cases hnull.1
      · intro hnA
        exact absurd (hA.1 hw) hnA
    · intro _
      refine ⟨((jround (invWGrossMonthlyAt P ((y - P.beginYear).toNat)) : ℤ) : ℚ),
        ((jround (invWAfterTaxAt P ((y - P.beginYear).toNat)) : ℤ) : ℚ),
        ((jround (invWRealAt P ((y - P.beginYear).toNat)) : ℤ) : ℚ), ?_, ?_, ?_⟩
      · rw [hcg, hg]
      · rw [hca, ha]
      · rw [hcr, hr]

/-- Witness for C5 at a concrete active input (the capped investment):
all three series hold numbers. -/
theorem c5_withdrawal_null_iff_witness :
    ∃ a b c : ℚ,
      (buildInvestmentBalanceAndWithdrawalChart mexp1 2025 capModel ("i")).wGross 2025
        = JsVal.num a
      ∧ (buildInvestmentBalanceAndWithdrawalChart mexp1 2025 capModel ("i")).wAfterTax 2025
        = JsVal.num b
      ∧ (buildInvestmentBalanceAndWithdrawalChart mexp1 2025 capModel ("i")).wReal 2025
        = JsVal.num c :=
  (c5_withdrawal_null_iff mexp1 2025 capModel ("i") 2025 (by decide)).2
    ⟨2025, by decide, by decide, by decide⟩

theorem invBalReportedAt_eq (P : InvParams) (i : ℕ) :
    invBalReportedAt P i = jround (balStart P (i + 1)) := rfl

/-- C8 counterexample to the claim as stated: an investment with withdrawal
rate `0`, growth rate `0.7 ≥ 0` (embedded growth factor
`mexpPoly 0.7 > 1`; the real `Math.exp 0.7 ≈ 2.014` is even larger) and zero
contributions, but a **negative** initial balance: the reported balance
strictly decreases between two consecutive horizon years. -/
theorem c8_balance_monotone_cex :
    (mkInvParams mexpPoly 2025 negBalanceModel ("i")).withdrawalRate = 0
      ∧ 1 ≤ (mkInvParams mexpPoly 2025 negBalanceModel ("i")).expRate
      ∧ 0 ≤ normalizePct
          ((List.lookup ("i") negBalanceModel.investments).getD investmentDefault).rate
      ∧ contributionAt (mkInvParams mexpPoly 2025 negBalanceModel ("i"))
          (balStart (mkInvParams mexpPoly 2025 negBalanceModel ("i")) 0) 0 = 0
      ∧ contributionAt (mkInvParams mexpPoly 2025 negBalanceModel ("i"))
          (balStart (mkInvParams mexpPoly 2025 negBalanceModel ("i")) 1) 1 = 0
      ∧ inHorizonB 2025 (retireEndYear 2025 negBalanceModel) 2025 = true
      ∧ inHorizonB 2025 (retireEndYear 2025 negBalanceModel) 2026 = true
      ∧ (buildInvestmentBalanceAndWithdrawalChart mexpPoly 2025 negBalanceModel ("i")).balanceValues
          2025 = JsVal.num (-200)
      ∧ (buildInvestmentBalanceAndWithdrawalChart mexpPoly 2025 negBalanceModel ("i")).balanceValues
          2026 = JsVal.num (-401)
      ∧ ¬((-200 : ℚ) ≤ -401) := by
  decide

/-- C8 (amended): additionally assuming a **non-negative initial balance**,
an investment with zero withdrawal rate, non-negative growth rate (any
exp-like oracle: `1 ≤ mexp x` for `0 ≤ x`) and non-negative contributions has
a non-decreasing reported balance across consecutive horizon years. -/
theorem c8_balance_monotone (mexp : ℚ → ℚ) (nowYear : ℤ) (m : Model)
    (investmentName : String)
    (hm : ∀ x : ℚ, 0 ≤ x → 1 ≤ mexp x)
    (hr : 0 ≤ normalizePct
        ((List.lookup investmentName m.investments).getD investmentDefault).rate)
    (hw : (mkInvParams mexp nowYear m investmentName).withdrawalRate = 0)
    (hb : 0 ≤ (mkInvParams mexp nowYear m investmentName).initialBalance)
    (hc : ∀ i, 0 ≤ contributionAt (mkInvParams mexp nowYear m investmentName)
        (balStart (mkInvParams mexp nowYear m investmentName) i) i)
    (y : ℤ)
    (hy1 : inHorizonB nowYear (retireEndYear nowYear m) y = true)
    (hy2 : inHorizonB nowYear (retireEndYear nowYear m) (y + 1) = true) :
    ∃ a b : ℤ,
      (buildInvestmentBalanceAndWithdrawalChart mexp nowYear m investmentName).balanceValues y
        = JsVal.num (a : ℚ)
      ∧ (buildInvestmentBalanceAndWithdrawalChart mexp nowYear m investmentName).balanceValues
          (y + 1) = JsVal.num (b : ℚ)
      ∧ a ≤ b := by
  set P := mkInvParams mexp nowYear m investmentName with hPdef
  have he : 1 ≤ P.expRate := hm _ hr
  have key := balStart_nonneg_mono P hw he hb hc
  have hle : nowYear ≤ y := by
    have h := hy1
    rw [inHorizonB, Bool.and_eq_true, decide_eq_true_eq, decide_eq_true_eq] at h
    exact h.1
  have hi1 : ((y + 1) - nowYear).toNat = (y - nowYear).toNat + 1 := by
    have : (y + 1) - nowYear = (y - nowYear) + 1 := by ring
    rw [this, Int.toNat_add (sub_nonneg.2 hle) (by norm_num)]
    rfl
  have hPb : P.beginYear = nowYear := rfl
  refine ⟨invBalReportedAt P ((y - nowYear).toNat),
    invBalReportedAt P ((y - nowYear).toNat + 1), ?_, ?_, ?_⟩
  · show seriesOf P.beginYear (retireEndYear nowYear m) (invBalReportedAt P) y = _
    rw [seriesOf, hPb, if_pos hy1]
  · show seriesOf P.beginYear (retireEndYear nowYear m) (invBalReportedAt P) (y + 1) = _
    rw [seriesOf, hPb, if_pos hy2, hi1]
  · rw [invBalReportedAt_eq, invBalReportedAt_eq]
    exact jround_mono (key ((y - nowYear).toNat + 1)).2

/-- Witness for C8 at a flat concrete investment. -/
theorem c8_balance_monotone_witness :
    ∃ a b : ℤ,
      (buildInvestmentBalanceAndWithdrawalChart mexp1 2025 growModel ("i")).balanceValues 2025
        = JsVal.num (a : ℚ)
      ∧ (buildInvestmentBalanceAndWithdrawalChart mexp1 2025 growModel ("i")).balanceValues 2026
        = JsVal.num (b : ℚ)
      ∧ a ≤ b := by
  have h := c8_balance_monotone mexp1 2025 growModel ("i")
    (fun x _ => le_refl 1) (by decide) (by decide) (by decide)
    (fun i => (contributionAt_rate_nonpos _ _ _ (by decide)).ge)
    2025 (by decide) (by decide)
  simpa using h

/-- C2 counterexample to "rounding is not chained": at offset 1 of
`wageChainModel` the source stores `round(round(16.6) / 2) = 9` in the real
series, while the claim's independently-rounded value is
`round(16.6 / 2) = 8`. -/
theorem c2_wage_rounding_cex :
    (buildWageMonthlyIncomeChart 2025 wageChainModel ("w")).real 2026 = JsVal.num 9
      ∧ specWageRealUnchained (mkWageParams 2025 wageChainModel ("w")) 1 = 8
      ∧ (buildWageMonthlyIncomeChart 2025 wageChainModel ("w")).real 2026
          ≠ JsVal.num ((specWageRealUnchained (mkWageParams 2025 wageChainModel ("w")) 1 : ℤ) : ℚ) := by
  decide

/-- C2 (amended): per horizon year at offset `i`, the wage projector stores
`round(annual·(1+raise)^i/12)` gross, `round(monthly·(1−tax))` after tax —
both rounded independently from the unrounded monthly income — but the real
value `round(roundedAfterTax/(1+infl)^i)` is **chained** through the
already-rounded after-tax value. -/
theorem c2_wage_rounding (nowYear : ℤ) (m : Model) (wageName : String) (y : ℤ)
    (hy : inHorizonB nowYear (wageEndYear nowYear m wageName) y = true) :
    (buildWageMonthlyIncomeChart nowYear m wageName).gross y
        = JsVal.num ((jround
            (numOr0 ((List.lookup wageName m.wages).getD wageDefault).annual
              * (1 + normalizePct ((List.lookup wageName m.wages).getD wageDefault).raise)
                ^ ((y - nowYear).toNat) / 12) : ℤ) : ℚ)
      ∧ (buildWageMonthlyIncomeChart nowYear m wageName).afterTax y
        = JsVal.num ((jround
            (numOr0 ((List.lookup wageName m.wages).getD wageDefault).annual
              * (1 + normalizePct ((List.lookup wageName m.wages).getD wageDefault).raise)
                ^ ((y - nowYear).toNat) / 12
              * (1 - normalizePct m.taxPercentage)) : ℤ) : ℚ)
      ∧ (buildWageMonthlyIncomeChart nowYear m wageName).real y
        = JsVal.num ((jround
            (((jround
                (numOr0 ((List.lookup wageName m.wages).getD wageDefault).annual
                  * (1 + normalizePct ((List.lookup wageName m.wages).getD wageDefault).raise)
                    ^ ((y - nowYear).toNat) / 12
                  * (1 - normalizePct m.taxPercentage)) : ℤ) : ℚ)
              / (1 + normalizePct m.inflationPercentage) ^ ((y - nowYear).toNat)) : ℤ) : ℚ) := by
  refine ⟨?_, ?_, ?_⟩
  · show seriesOf nowYear (wageEndYear nowYear m wageName)
      (wageGrossVal (mkWageParams nowYear m wageName)) y = _
    rw [seriesOf, if_pos hy]
    rfl
  · show seriesOf nowYear (wageEndYear nowYear m wageName)
      (wageAfterTaxVal (mkWageParams nowYear m wageName)) y = _
    rw [seriesOf, if_pos hy]
    rfl
  · show seriesOf nowYear (wageEndYear nowYear m wageName)
      (wageRealVal (mkWageParams nowYear m wageName)) y = _
    rw [seriesOf, if_pos hy]
    rfl

/-- Witness for C2 at the concrete chain model, offset 1. -/
theorem c2_wage_rounding_witness :
    (buildWageMonthlyIncomeChart 2025 wageChainModel ("w")).gross 2026
        = JsVal.num ((jround
            (numOr0 ((List.lookup ("w") wageChainModel.wages).getD wageDefault).annual
              * (1 + normalizePct ((List.lookup ("w") wageChainModel.wages).getD wageDefault).raise)
                ^ (((2026 : ℤ) - 2025).toNat) / 12) : ℤ) : ℚ)
      ∧ (buildWageMonthlyIncomeChart 2025 wageChainModel ("w")).afterTax 2026
        = JsVal.num ((jround
            (numOr0 ((List.lookup ("w") wageChainModel.wages).getD wageDefault).annual
              * (1 + normalizePct ((List.lookup ("w") wageChainModel.wages).getD wageDefault).raise)
                ^ (((2026 : ℤ) - 2025).toNat) / 12
              * (1 - normalizePct wageChainModel.taxPercentage)) : ℤ) : ℚ)
      ∧ (buildWageMonthlyIncomeChart 2025 wageChainModel ("w")).real 2026
        = JsVal.num ((jround
            (((jround
                (numOr0 ((List.lookup ("w") wageChainModel.wages).getD wageDefault).annual
                  * (1 + normalizePct ((List.lookup ("w") wageChainModel.wages).getD wageDefault).raise)
                    ^ (((2026 : ℤ) - 2025).toNat) / 12
                  * (1 - normalizePct wageChainModel.taxPercentage)) : ℤ) : ℚ)
              / (1 + normalizePct wageChainModel.inflationPercentage)
                ^ (((2026 : ℤ) - 2025).toNat)) : ℤ) : ℚ) :=
  c2_wage_rounding 2025 wageChainModel ("w") 2026 (by decide)

/-- C4 counterexample to the claim as stated: `contributionsFrom` names an
existing wage, the wage has no stop-work year, the contribution rate is
positive — the claim's formula gives `-1200` — yet the code contributes `0`,
because it additionally requires the wage's coerced annual amount to be
positive. -/
theorem c4_contribution_cex :
    ((List.lookup ("i") negAnnualModel.investments).getD investmentDefault).contributionsFrom
        = some ("w")
      ∧ List.lookup ("w") negAnnualModel.wages
        = some { annual := some (-12000), raise := some 0, stopWorkDate := none }
      ∧ withinWageYears (mkInvParams mexp1 2025 negAnnualModel ("i")) (2025 + (0 : ℕ)) = true
      ∧ 0 < normalizePct
          ((List.lookup ("i") negAnnualModel.investments).getD investmentDefault).contributionRate
      ∧ numOr0 (some (-12000))
            * (1 + normalizePct (some 0)) ^ (0 : ℕ)
            * normalizePct
                ((List.lookup ("i") negAnnualModel.investments).getD investmentDefault).contributionRate
          = -1200
      ∧ contributionAt (mkInvParams mexp1 2025 negAnnualModel ("i")) 0 0 = 0 := by
  decide

/-- C4 (amended): the legacy flag is off; the contribution equals the
referenced wage's projected annual amount times `contributionRate` exactly
when `contributionsFrom` names an existing wage **whose coerced annual amount
is strictly positive**, the year is within the wage's working years and the
contribution rate is positive; in every other case (including a dangling
reference and a non-positive wage annual) the contribution is `0`, for any
running balance — so the disabled percent-of-balance fallback contributes
nothing. -/
theorem c4_contribution (mexp : ℚ → ℚ) (nowYear : ℤ) (m : Model)
    (investmentName : String) (i : ℕ) :
    enableLegacyBalancePctFallback = false
    ∧ (∀ (cf : String) (w : Wage),
        ((List.lookup investmentName m.investments).getD investmentDefault).contributionsFrom
            = some cf →
        ¬(cf = "") →
        List.lookup cf m.wages = some w →
        0 < numOr0 w.annual →
        0 < normalizePct
            ((List.lookup investmentName m.investments).getD investmentDefault).contributionRate →
        withinWageYears (mkInvParams mexp nowYear m investmentName) (nowYear + (i : ℤ)) = true →
        ∀ bal : ℚ,
          contributionAt (mkInvParams mexp nowYear m investmentName) bal i
            = numOr0 w.annual * (1 + normalizePct w.raise) ^ i
              * normalizePct
                  ((List.lookup investmentName m.investments).getD investmentDefault).contributionRate)
    ∧ (∀ bal : ℚ,
        ¬(∃ (cf : String) (w : Wage),
            ((List.lookup investmentName m.investments).getD investmentDefault).contributionsFrom
                = some cf
            ∧ ¬(cf = "")
            ∧ List.lookup cf m.wages = some w
            ∧ 0 < numOr0 w.annual
            ∧ 0 < normalizePct
                ((List.lookup investmentName m.investments).getD investmentDefault).contributionRate
            ∧ withinWageYears (mkInvParams mexp nowYear m investmentName) (nowYear + (i : ℤ))
                = true) →
        contributionAt (mkInvParams mexp nowYear m investmentName) bal i = 0) := by
  set P := mkInvParams mexp nowYear m investmentName with hPdef
  have hPb : P.beginYear = nowYear := rfl
  have hhasdef : P.hasWageName
      = (match ((List.lookup investmentName m.investments).getD investmentDefault).contributionsFrom with
         | some s => decide (¬(s = ""))
         | none => false) := rfl
  have hbasedef : P.wageAnnualBase
      = (match
          (match ((List.lookup investmentName m.investments).getD investmentDefault).contributionsFrom with
           | some s => if s = "" then none else List.lookup s m.wages
           | none => none) with
         | some w => numOr0 w.annual
         | none => 0) := rfl
  have hraisedef : P.wageRaise
      = (match
          (match ((List.lookup investmentName m.investments).getD investmentDefault).contributionsFrom with
           | some s => if s = "" then none else List.lookup s m.wages
           | none => none) with
         | some w => normalizePct w.raise
         | none => 0) := rfl
  refine ⟨rfl, ?_, ?_⟩
  · intro cf w h1 h2 h3 h4 h5 h6 bal
    have hhas : P.hasWageName = true := by
      rw [hhasdef, h1]
      simp [h2]
    have hbase : P.wageAnnualBase = numOr0 w.annual := by
      rw [hbasedef, h1]
      simp only [if_neg h2, h3]
    have hraise : P.wageRaise = normalizePct w.raise := by
      rw [hraisedef, h1]
      simp only [if_neg h2, h3]
    rw [contributionAt, if_pos (show 0 < P.contributionRate from h5),
      if_pos (show P.hasWageName ∧ 0 < P.wageAnnualBase from ⟨by rw [hhas], by rw [hbase]; exact h4⟩),
      if_pos (show withinWageYears P (P.beginYear + (i : ℤ)) = true from by rw [hPb]; exact h6)]
    rw [hbase, hraise]
    rfl
  · intro bal hn
    by_cases hcr : 0 < P.contributionRate
    · by_cases hhw : P.hasWageName = true ∧ 0 < P.wageAnnualBase
      · by_cases hwy : withinWageYears P (P.beginYear + (i : ℤ)) = true
        · exfalso
          apply hn
          rcases hcf : ((List.lookup investmentName m.investments).getD investmentDefault).contributionsFrom with _ | cf
          · rw [hhasdef, hcf] at hhw
            simp at hhw
          · have hne : ¬(cf = "") := by
              have := hhw.1
              rw [hhasdef, hcf] at this
              simpa using this
            rcases hlk : List.lookup cf m.wages with _ | w
            · exfalso
              have hb2 := hhw.2
              rw [hbasedef, hcf] at hb2
              simp only [if_neg hne, hlk] at hb2
              exact absurd hb2 (by norm_num)
            · have hbase : P.wageAnnualBase = numOr0 w.annual := by
                rw [hbasedef, hcf]
                simp only [if_neg hne, hlk]
              exact ⟨cf, w, rfl, hne, hlk, by rw [← hbase]; exact hhw.2, hcr,
                by rw [← hPb]; exact hwy⟩
        · rw [contributionAt, if_pos hcr, if_pos hhw, if_neg hwy]
      · rw [contributionAt, if_pos hcr, if_neg hhw]
        simp [enableLegacyBalancePctFallback]
    · exact contributionAt_rate_nonpos P bal i (not_lt.1 hcr)

/-- Witness for C4 at a concrete contributing input: wage `1200`, rate 10%,
contribution `120`. -/
theorem c4_contribution_witness :
    contributionAt (mkInvParams mexp1 2025 contribModel ("i")) 0 0 = 120 := by
  have h := (c4_contribution mexp1 2025 contribModel ("i") 0).2.1 ("w")
    { annual := some 1200, raise := some 0, stopWorkDate := none }
    (by decide) (by decide) (by decide) (by decide) (by decide) (by decide) 0
  rw [h]
  decide

/-- C9 counterexample to "a defined year is produced only for well-formed
fixed-format MM/DD/YYYY strings": the regular expression is an unanchored
substring test, so the malformed string `112/31/2030` (three-digit first
field) passes it and yields the defined year `2030`. -/
theorem c9_date_parse_cex :
    extractYear (some ("112/31/2030")) = some (some 2030)
      ∧ specWellFormedDate ("112/31/2030") = false := by
  decide

/-- C9 (amended): year extraction is a total function (no exception); it is
`undefined` for a missing string, a year can be defined only when the string
passes the unanchored `\d{2}/\d{2}/\d{4}` substring test (which some
malformed strings also pass), and every well-formed `MM/DD/YYYY` string
yields its four `YYYY` digits as a defined year. -/
theorem c9_date_parse (s : String) (d1 d2 d3 d4 d5 d6 d7 d8 : Char)
    (h1 : d1.isDigit = true) (h2 : d2.isDigit = true)
    (h3 : d3.isDigit = true) (h4 : d4.isDigit = true)
    (h5 : d5.isDigit = true) (h6 : d6.isDigit = true)
    (h7 : d7.isDigit = true) (h8 : d8.isDigit = true) :
    (¬(extractYear (some s) = none) → regexTestDate s = true)
    ∧ extractYear none = none
    ∧ extractYear (some (String.mk [d1, d2, '/', d3, d4, '/', d5, d6, d7, d8]))
        = some (some ((digitsToNat [d5, d6, d7, d8] : ℕ) : ℚ)) := by
  refine ⟨?_, rfl, extractYear_wellFormed d1 d2 d3 d4 d5 d6 d7 d8 h1 h2 h3 h4 h5 h6 h7 h8⟩
  intro h
  by_cases hse : s = ""
  · exfalso
    apply h
    rw [extractYear, if_pos hse]
  · by_cases hre : regexTestDate s = true
    · exact hre
    · exfalso
      apply h
      rw [extractYear, if_neg hse, if_neg hre]

/-- Witness for C9: a concrete well-formed date and the totality conjuncts. -/
theorem c9_date_parse_witness :
    (¬(extractYear (some ("hello")) = none) → regexTestDate ("hello") = true)
    ∧ extractYear none = none
    ∧ extractYear (some (String.mk ['0', '1', '/', '0', '1', '/', '2', '0', '2', '5']))
        = some (some ((digitsToNat ['2', '0', '2', '5'] : ℕ) : ℚ)) :=
  c9_date_parse ("hello") '0' '1' '0' '1' '2' '0' '2' '5'
    (by decide) (by decide) (by decide) (by decide)
    (by decide) (by decide) (by decide) (by decide)

/-- C10 counterexample: a strictly positive planning horizon of `0.5` years
does not set the wage end year to `beginYear + 0.5 - 1 = 2024.5`; the wage
builder clamps it back to the begin year `2025` (the investment and annuity
builders do return `2024.5`). -/
theorem c10_horizon_cex :
    halfHorizonModel.planningHorizonYears = some (1/2)
      ∧ (0 : ℚ) < 1/2
      ∧ (buildWageMonthlyIncomeChart 2025 halfHorizonModel ("w")).endYear = 2025
      ∧ ¬((2025 : ℚ) = 2025 + 1/2 - 1) := by
  decide

/-- C10 (amended): a missing, zero or non-positive `planningHorizonYears` is
ignored and the end year falls back to the stop-work rule (wage, clamped
below at the begin year) or the retire rule (investment and annuity); a
strictly positive value sets the end year to `beginYear + horizon - 1`, with
the wage projector additionally clamping that value below at the begin year
(visible only for horizons `< 1`). -/
theorem c10_horizon (mexp : ℚ → ℚ) (nowYear : ℤ) (m : Model)
    (wageName investmentName annuityName : String) :
    ((m.planningHorizonYears = none
        ∨ ∃ q : ℚ, m.planningHorizonYears = some q ∧ q ≤ 0) →
      (buildWageMonthlyIncomeChart nowYear m wageName).endYear
          = (if (match extractYear ((List.lookup wageName m.wages).getD wageDefault).stopWorkDate with
                 | some (some v) => if v = 0 then (nowYear : ℚ) else v
                 | _ => (nowYear : ℚ)) < (nowYear : ℚ)
             then (nowYear : ℚ)
             else (match extractYear ((List.lookup wageName m.wages).getD wageDefault).stopWorkDate with
                 | some (some v) => if v = 0 then (nowYear : ℚ) else v
                 | _ => (nowYear : ℚ)))
        ∧ (buildInvestmentBalanceAndWithdrawalChart mexp nowYear m investmentName).endYear
          = (match extractYear m.retireDate with
             | some (some v) => if v = 0 then (nowYear : ℚ) + 10 else v + numOr0 m.yearsAfterRetire
             | _ => (nowYear : ℚ) + 10)
        ∧ (buildAnnuityMonthlyIncomeChart nowYear m annuityName).endYear
          = (match extractYear m.retireDate with
             | some (some v) => if v = 0 then (nowYear : ℚ) + 10 else v + numOr0 m.yearsAfterRetire
             | _ => (nowYear : ℚ) + 10))
    ∧ (∀ q : ℚ, m.planningHorizonYears = some q → 0 < q →
        (buildWageMonthlyIncomeChart nowYear m wageName).endYear
            = (if (nowYear : ℚ) + q - 1 < (nowYear : ℚ) then (nowYear : ℚ)
               else (nowYear : ℚ) + q - 1)
          ∧ (buildInvestmentBalanceAndWithdrawalChart mexp nowYear m investmentName).endYear
            = (nowYear : ℚ) + q - 1
          ∧ (buildAnnuityMonthlyIncomeChart nowYear m annuityName).endYear
            = (nowYear : ℚ) + q - 1) := by
  constructor
  · intro hph
    have hnu : numOrUndef m.planningHorizonYears = none
        ∨ ∃ q : ℚ, numOrUndef m.planningHorizonYears = some q ∧ ¬(0 < q) := by
      rcases hph with h | ⟨q, hq, hle⟩
      · left
        rw [h]
        rfl
      · by_cases h0 : q = 0
        · left
          rw [hq, numOrUndef, if_pos h0]
        · right
          exact ⟨q, by rw [hq, numOrUndef, if_neg h0], not_lt.2 hle⟩
    have hwage : (buildWageMonthlyIncomeChart nowYear m wageName).endYear
        = wageEndYear nowYear m wageName := rfl
    have hinv : (buildInvestmentBalanceAndWithdrawalChart mexp nowYear m investmentName).endYear
        = retireEndYear nowYear m := rfl
    have hann : (buildAnnuityMonthlyIncomeChart nowYear m annuityName).endYear
        = retireEndYear nowYear m := rfl
    rcases hnu with h | ⟨q, hq, hnot⟩
    · refine ⟨?_, ?_, ?_⟩
      · rw [hwage]
        simp only [wageEndYear, h]
      · rw [hinv]
        simp only [retireEndYear, h]
      · rw [hann]
        simp only [retireEndYear, h]
    · refine ⟨?_, ?_, ?_⟩
      · rw [hwage]
        simp only [wageEndYear, hq, if_neg hnot]
      · rw [hinv]
        simp only [retireEndYear, hq, if_neg hnot]
      · rw [hann]
        simp only [retireEndYear, hq, if_neg hnot]
  · intro q hph h0
    have hq : numOrUndef m.planningHorizonYears = some q := by
      rw [hph, numOrUndef, if_neg (ne_of_gt h0)]
    refine ⟨?_, ?_, ?_⟩
    · show wageEndYear nowYear m wageName = _
      simp only [wageEndYear, hq, if_pos h0]
    · show retireEndYear nowYear m = _
      simp only [retireEndYear, hq, if_pos h0]
    · show retireEndYear nowYear m = _
      simp only [retireEndYear, hq, if_pos h0]

/-- Witness for C10: the negative-horizon model falls back (wage 2030,
retire-based 2035); the 3-year horizon overrides every builder to 2027. -/
theorem c10_horizon_witness :
    (buildWageMonthlyIncomeChart 2025 fallbackModel ("w")).endYear = 2030
      ∧ (buildInvestmentBalanceAndWithdrawalChart mexp1 2025 fallbackModel ("i")).endYear = 2035
      ∧ (buildAnnuityMonthlyIncomeChart 2025 fallbackModel ("a")).endYear = 2035
      ∧ (buildWageMonthlyIncomeChart 2025 overrideModel ("w")).endYear = 2027
      ∧ (buildInvestmentBalanceAndWithdrawalChart mexp1 2025 overrideModel ("i")).endYear = 2027 := by
  have hfb := (c10_horizon mexp1 2025 fallbackModel ("w") ("i") ("a")).1
    (Or.inr ⟨-5, rfl, by norm_num⟩)
  have hov := (c10_horizon mexp1 2025 overrideModel ("w") ("i") ("a")).2 3 rfl (by norm_num)
  refine ⟨?_, ?_, ?_, ?_, ?_⟩
  · rw [hfb.1]
    decide
  · rw [hfb.2.1]
    decide
  · rw [hfb.2.2]
    decide
  · rw [hov.1]
    decide
  · rw [hov.2.1]
    decide

/-- C3: with at least one investment, for every year of the combined horizon
the aggregate balance value is the sum of exactly those per-investment
balance values that are numeric at that year. -/
theorem c3_total_balance (mexp : ℚ → ℚ) (nowYear : ℤ) (m : Model) (y : ℤ)
    (hinv : ¬(invNamesOf m = []))
    (hy : inHorizonB (aggBeginYear mexp nowYear m) (aggEndYear mexp nowYear m) y = true) :
    (buildTotalInvestmentAggregates mexp nowYear m).totalBalance y
      = JsVal.num ((numericBalancesAt (invChartsOf mexp nowYear m) y).sum) := by
  have hE : hasEntitiesOf m = true := hasEntitiesOf_of_inv m hinv
  have hInvB : (invNamesOf m).isEmpty = false := by
    rcases hn : invNamesOf m with _ | _
    · exact absurd hn hinv
    · rfl
  have hcond : (inHorizonB (aggBeginYear mexp nowYear m) (aggEndYear mexp nowYear m) y
      && !(invNamesOf m).isEmpty) = true := by
    rw [hy, hInvB]
    rfl
  simp only [buildTotalInvestmentAggregates, hE, if_true]
  rw [if_pos hcond, balSumAt_eq]

/-- Witness for C3 on a concrete two-investment model. -/
theorem c3_total_balance_witness :
    (buildTotalInvestmentAggregates mexp1 2025 twoInvModel).totalBalance 2025
      = JsVal.num ((numericBalancesAt (invChartsOf mexp1 2025 twoInvModel) 2025).sum) :=
  c3_total_balance mexp1 2025 twoInvModel 2025 (by decide) (by decide)

theorem wageFoldInc_filter (stops : String → Option (Option ℚ)) (n : String) (y : ℤ)
    (hskip : suppressedAt stops n y = true) :
    ∀ (ps : List (String × IncomeChart)) (acc : IncAcc),
      wageFoldInc ps stops y acc
        = wageFoldInc (ps.filter (fun p => !(p.1 == n))) stops y acc := by
  intro ps
  induction ps with
  | nil => intro acc; rfl
  | cons p ps ih =>
      intro acc
      have hcons : wageFoldInc (p :: ps) stops y acc
          = wageFoldInc ps stops y
              (if suppressedAt stops p.1 y then acc
               else stepIncome acc (p.2.gross y) (p.2.afterTax y) (p.2.real y)) := rfl
      cases hpn : (p.1 == n)
      · rw [hcons, List.filter_cons]
        simp only [hpn, Bool.not_false, if_pos]
        have hcons2 : wageFoldInc (p :: ps.filter (fun p => !(p.1 == n))) stops y acc
            = wageFoldInc (ps.filter (fun p => !(p.1 == n))) stops y
                (if suppressedAt stops p.1 y then acc
                 else stepIncome acc (p.2.gross y) (p.2.afterTax y) (p.2.real y)) := rfl
        rw [hcons2, ih]
      · have hpeq : p.1 = n := by
          exact eq_of_beq hpn
        rw [hcons, List.filter_cons]
        simp only [hpn, Bool.not_true, if_neg, Bool.false_eq_true, if_false]
        rw [hpeq, hskip]
        simp only [if_pos]
        exact ih acc

/-- C6: a wage whose stop-work year parses to `s` is skipped by the wage pass
of the income aggregation exactly at year `s` — the whole pass equals the
pass with that wage removed — while at every other year its pair contributes
its series values through the normal step. -/
theorem c6_wage_stop_suppression (nowYear : ℤ) (m : Model) (n : String) (s : ℚ)
    (hstop : stopsOf m n = some (some s)) :
    (∀ y : ℤ, (y : ℚ) = s → ∀ acc : IncAcc,
        wageFoldInc (wagePairsOf nowYear m) (stopsOf m) y acc
          = wageFoldInc ((wagePairsOf nowYear m).filter (fun p => !(p.1 == n)))
              (stopsOf m) y acc)
    ∧ (∀ y : ℤ, ¬((y : ℚ) = s) → ∀ (c : IncomeChart) (acc : IncAcc),
        wageFoldInc [(n, c)] (stopsOf m) y acc
          = stepIncome acc (c.gross y) (c.afterTax y) (c.real y)) := by
  constructor
  · intro y hy acc
    have hsup : suppressedAt (stopsOf m) n y = true := by
      rw [suppressedAt, hstop]
      simp [hy]
    exact wageFoldInc_filter (stopsOf m) n y hsup (wagePairsOf nowYear m) acc
  · intro y hy c acc
    have hsup : suppressedAt (stopsOf m) n y = false := by
      rw [suppressedAt, hstop]
      simp [hy]
    have hsingle : wageFoldInc [(n, c)] (stopsOf m) y acc
        = (if suppressedAt (stopsOf m) n y then acc
           else stepIncome acc (c.gross y) (c.afterTax y) (c.real y)) := rfl
    rw [hsingle, hsup]
    simp

/-- Witness for C6 on the concrete stopping wage (stop year 2026). -/
theorem c6_wage_stop_suppression_witness :
    wageFoldInc (wagePairsOf 2025 stopWageModel) (stopsOf stopWageModel) 2026
        ⟨false, 0, 0, 0⟩
      = wageFoldInc ((wagePairsOf 2025 stopWageModel).filter (fun p => !(p.1 == ("w"))))
          (stopsOf stopWageModel) 2026 ⟨false, 0, 0, 0⟩ :=
  (c6_wage_stop_suppression 2025 stopWageModel ("w") 2026 (by decide)).1 2026 (by norm_num)
    ⟨false, 0, 0, 0⟩

/-- C7: within the combined horizon (and with at least one entity), the three
aggregate income values are `null` exactly when no contributing entity (an
investment withdrawal, an annuity, or a non-suppressed wage) reports a
numeric value in any of its three series at that year; whenever one does,
all three aggregates are numbers — the rounded sums in which every `null` or
absent contribution counts as `0`. -/
theorem c7_income_null_iff (mexp : ℚ → ℚ) (nowYear : ℤ) (m : Model) (y : ℤ)
    (hE : hasEntitiesOf m = true)
    (hy : inHorizonB (aggBeginYear mexp nowYear m) (aggEndYear mexp nowYear m) y = true) :
    (((buildTotalInvestmentAggregates mexp nowYear m).totalIncomeGross y = JsVal.null
        ∧ (buildTotalInvestmentAggregates mexp nowYear m).totalIncomeAfterTax y = JsVal.null
        ∧ (buildTotalInvestmentAggregates mexp nowYear m).totalIncomeReal y = JsVal.null)
      ↔ anyReporterAt (allIncomeTriplesAt mexp nowYear m y) = false)
    ∧ (anyReporterAt (allIncomeTriplesAt mexp nowYear m y) = true →
        (buildTotalInvestmentAggregates mexp nowYear m).totalIncomeGross y
            = JsVal.num ((jround (sumGOf (allIncomeTriplesAt mexp nowYear m y)) : ℤ) : ℚ)
          ∧ (buildTotalInvestmentAggregates mexp nowYear m).totalIncomeAfterTax y
            = JsVal.num ((jround (sumATOf (allIncomeTriplesAt mexp nowYear m y)) : ℤ) : ℚ)
          ∧ (buildTotalInvestmentAggregates mexp nowYear m).totalIncomeReal y
            = JsVal.num ((jround (sumRATOf (allIncomeTriplesAt mexp nowYear m y)) : ℤ) : ℚ)) := by
  have htog := together_allTriples mexp nowYear m y
  have hAcc := aggIncomeAcc_eq mexp nowYear m y
  have hany : (aggIncomeAcc mexp nowYear m y).anyIncome
      = anyReporterAt (allIncomeTriplesAt mexp nowYear m y) := by
    rw [hAcc, foldTriples_anyIncome, anyReporter_eq_gross _ htog]
    simp
  have hgS : (aggIncomeAcc mexp nowYear m y).gSum
      = sumGOf (allIncomeTriplesAt mexp nowYear m y) := by
    rw [hAcc, foldTriples_gSum]
    simp
  have haS : (aggIncomeAcc mexp nowYear m y).aTSum
      = sumATOf (allIncomeTriplesAt mexp nowYear m y) := by
    rw [hAcc, foldTriples_aTSum]
    simp
  have hrS : (aggIncomeAcc mexp nowYear m y).rATSum
      = sumRATOf (allIncomeTriplesAt mexp nowYear m y) := by
    rw [hAcc, foldTriples_rATSum]
    simp
  have hG : (buildTotalInvestmentAggregates mexp nowYear m).totalIncomeGross y
      = (if (aggIncomeAcc mexp nowYear m y).anyIncome then
          JsVal.num ((jround (aggIncomeAcc mexp nowYear m y).gSum : ℤ) : ℚ)
        else JsVal.null) := by
    simp only [buildTotalInvestmentAggregates, hE, if_true]
    rw [if_pos hy]
  have hAT : (buildTotalInvestmentAggregates mexp nowYear m).totalIncomeAfterTax y
      = (if (aggIncomeAcc mexp nowYear m y).anyIncome then
          JsVal.num ((jround (aggIncomeAcc mexp nowYear m y).aTSum : ℤ) : ℚ)
        else JsVal.null) := by
    simp only [buildTotalInvestmentAggregates, hE, if_true]
    rw [if_pos hy]
  have hRT : (buildTotalInvestmentAggregates mexp nowYear m).totalIncomeReal y
      = (if (aggIncomeAcc mexp nowYear m y).anyIncome then
          JsVal.num ((jround (aggIncomeAcc mexp nowYear m y).rATSum : ℤ) : ℚ)
        else JsVal.null) := by
    simp only [buildTotalInvestmentAggregates, hE, if_true]
    rw [if_pos hy]
  cases hA : anyReporterAt (allIncomeTriplesAt mexp nowYear m y)
  · have hfalse : (aggIncomeAcc mexp nowYear m y).anyIncome = false := by
      rw [hany, hA]
    rw [hG, hAT, hRT, hfalse]
    constructor
    · simp
    · intro hAt
      exact absurd hAt (by decide)
  · have htrue : (aggIncomeAcc mexp nowYear m y).anyIncome = true := by
      rw [hany, hA]
    rw [hG, hAT, hRT, htrue]
    simp only [if_true]
    constructor
    · simp
    · intro _
      exact ⟨by rw [hgS], by rw [haS], by rw [hrS]⟩

/-- Witness for C7 on the concrete stopping-wage model at 2025 (the wage
reports, so all three aggregates are rounded sums). -/
theorem c7_income_null_iff_witness :
    (buildTotalInvestmentAggregates mexp1 2025 stopWageModel).totalIncomeGross 2025
        = JsVal.num ((jround (sumGOf (allIncomeTriplesAt mexp1 2025 stopWageModel 2025)) : ℤ) : ℚ)
      ∧ (buildTotalInvestmentAggregates mexp1 2025 stopWageModel).totalIncomeAfterTax 2025
        = JsVal.num ((jround (sumATOf (allIncomeTriplesAt mexp1 2025 stopWageModel 2025)) : ℤ) : ℚ)
      ∧ (buildTotalInvestmentAggregates mexp1 2025 stopWageModel).totalIncomeReal 2025
        = JsVal.num ((jround (sumRATOf (allIncomeTriplesAt mexp1 2025 stopWageModel 2025)) : ℤ) : ℚ) :=
  (c7_income_null_iff mexp1 2025 stopWageModel 2025 (by decide) (by decide)).2 (by decide)
